import Mathlib

/-!
# KMSDRM dumb-buffer and GBM presentation paths

A shallow embedding of `src/video/kmsdrm/SDL_kmsdrmdumb.c` and of the GBM
initialization, teardown and swap chain of
`src/video/kmsdrm/SDL_kmsdrmopengles.c`.

The C functions mutate `SDL_WindowData`, `SDL_VideoData` and process memory
and talk to the kernel.  Here every function takes the state explicitly and
returns the new one; what the kernel (or EGL/GBM) answers to each call is an
input of the function (an oracle record), and every call that leaves the
process is appended to `State.trace` together with its result, so that
"which calls were issued, in which order, with which arguments" is a
property of the returned state.

Machine integers: `__u32` fields are naturals holding the 32-bit pattern
(`u32 (-1) = 4294967295`), `int` values that hold return codes and
descriptors are integers, array indices and sizes are naturals, pointers are
natural addresses with `NULL = 0` and `MAP_FAILED = (void *) -1`.  In the
copy loop the `__u32` product is reduced modulo `2 ^ 32`, the `int` products
wrap at 32 bits (`i32`), and pointer arithmetic is modulo `2 ^ 64` (`ptrAdd`).

`KMSDRM_WaitPageflip` and `KMSDRM_CreateSurfaces` are called by the two files
but defined in `SDL_kmsdrmvideo.c`; they are modelled from the specification
and marked so.
-/

namespace SDLKmsdrm

/-! ## Constants -/

/-- The null pointer. -/
def NULL : Nat := 0

/-- The value `(void *) -1` that `mmap` returns on failure (64-bit pointers). -/
def MAP_FAILED : Nat := 2 ^ 64 - 1

/-- The EGL handle `EGL_NO_SURFACE`, a null handle. -/
def EGL_NO_SURFACE : Nat := 0

/-- The flag `DRM_MODE_PAGE_FLIP_EVENT` of `drm_mode.h`. -/
def DRM_MODE_PAGE_FLIP_EVENT : Nat := 1

/-- The flag `DRM_MODE_PAGE_FLIP_ASYNC` of `drm_mode.h`. -/
def DRM_MODE_PAGE_FLIP_ASYNC : Nat := 2

/-- Conversion of a C `int` to `__u32` (what the assignment `handle = -1` stores). -/
def u32 (z : Int) : Nat := (z % 2 ^ 32).toNat

/-- The value `SDL_SetError` returns: always -1. -/
def SDL_SetError : Int := -1

/-! ## Data model -/

/-- The kernel request record `struct drm_mode_create_dumb` (all fields `__u32`, `size` is `__u64`). -/
structure drm_mode_create_dumb where
  height : Nat
  width : Nat
  bpp : Nat
  flags : Nat
  handle : Nat
  pitch : Nat
  size : Nat
  deriving DecidableEq, Repr

/-- The kernel request record `struct drm_mode_map_dumb`. -/
structure drm_mode_map_dumb where
  handle : Nat
  pad : Nat
  offset : Nat
  deriving DecidableEq, Repr

/-- The kernel request record `struct drm_mode_destroy_dumb`. -/
structure drm_mode_destroy_dumb where
  handle : Nat
  deriving DecidableEq, Repr

/-- One slot of `windata->dumb_buffers`.  `buf_id` holds a 32-bit pattern
(it is the object `drmModeAddFB` writes through its `uint32_t *` parameter);
`map` is the address returned by `mmap`, a `void *`, so the arithmetic on it
at line 174 counts bytes. -/
structure KMSDRM_DumbBuffer where
  req_create : drm_mode_create_dumb
  req_map : drm_mode_map_dumb
  req_destroy_dumb : drm_mode_destroy_dumb
  buf_id : Nat
  map : Nat
  deriving DecidableEq, Repr

/-- The fields of `SDL_Surface` the present path reads. -/
structure SDL_Surface where
  pixels : Nat
  pitch : Nat
  BytesPerPixel : Nat
  deriving DecidableEq, Repr

/-- The fields of `SDL_WindowData` used by the two presentation paths. -/
structure SDL_WindowData where
  dumb_buffers : List KMSDRM_DumbBuffer
  back_buffer : Nat
  front_buffer : Nat
  set_crtc : Bool
  waiting_for_flip : Bool
  egl_surface_dirty : Bool
  double_buffer : Bool
  framebuffer : Option SDL_Surface
  egl_surface : Nat
  gs : Nat
  bo : Nat
  next_bo : Nat
  deriving DecidableEq, Repr

/-- The fields of `SDL_VideoData` used by the two presentation paths. -/
structure SDL_VideoData where
  drm_fd : Int
  dumb_init : Bool
  gbm_init : Bool
  opengl_mode : Bool
  async_pageflip_support : Bool
  gbm_dev : Nat
  deriving DecidableEq, Repr

/-- The fields of `SDL_DisplayData` used here: the size of `fullscreen_mode`
and the ids of the CRTC and connector. -/
structure SDL_DisplayData where
  hdisplay : Nat
  vdisplay : Nat
  crtc_id : Nat
  connector_id : Nat
  deriving DecidableEq, Repr

/-- A call that leaves the process, with its arguments and, where the code
reads it, its result. -/
inductive KCall where
  | openDev
  | drmGetCap (fd : Int)
  | createDumb (fd : Int) (width height bpp : Nat) (ret : Int) (handle : Nat)
  | addFB (fd : Int) (width height pitch handle : Nat) (ret : Int) (fb_id : Nat)
  | mapDumb (fd : Int) (handle : Nat) (ret : Int)
  | mmap (fd : Int) (size offset : Nat) (result : Nat)
  | rmFB (fd : Int) (buf_id : Nat)
  | destroyDumb (fd : Int) (handle : Nat)
  | unmap (addr size : Nat)
  | close (fd : Int)
  | setCrtc (fd : Int) (crtc_id fb_id : Nat) (ret : Int)
  | pageFlip (fd : Int) (crtc_id fb_id flags : Nat) (pending : Bool) (ret : Int)
  | memcpy (dst src n : Nat)
  | setError
  | freeSurface (pixels : Nat)
  | createRGBSurface (w h : Nat)
  | makeCurrentNone
  | eglDestroySurface (surface : Nat)
  | gbmSurfaceDestroy (gs : Nat)
  | gbmSurfaceCreate
  | eglCreateSurface
  | releaseBuffer (gs bo : Nat)
  | eglSwapBuffers (surface : Nat) (ok : Bool)
  | lockFrontBuffer (gs : Nat) (bo : Nat)
  | fbFromBO (bo : Nat) (fb : Option Nat)
  | drmSetMaster (fd : Int)
  | gbmCreateDevice (fd : Int) (dev : Nat)
  | gbmDeviceDestroy (dev : Nat)
  deriving DecidableEq, Repr

/-- The whole state the presentation functions act on: the window, video and
display records, the window size, the EGL swap interval, process memory (one
byte per address) and the calls issued so far. -/
structure State where
  windata : SDL_WindowData
  viddata : SDL_VideoData
  dispdata : SDL_DisplayData
  window_w : Nat
  window_h : Nat
  egl_swapinterval : Int
  mem : Nat → Nat
  trace : List KCall

/-! ## Kernel answers during pool creation -/

/-- What the kernel answers to the four creation steps of one slot: the
return code of each call and the values it writes back on success. -/
structure SlotOutcome where
  create_ret : Int
  handle : Nat
  pitch : Nat
  size : Nat
  addfb_ret : Int
  fb_id : Nat
  map_ret : Int
  offset : Nat
  mmap_ret : Nat
  deriving DecidableEq, Repr

/-- What the environment answers during `KMSDRM_Dumb_CreateDumbBuffers`. -/
structure CreateOracle where
  open_fd : Int
  getcap_ret : Int
  has_dumb : Nat
  slot : Nat → SlotOutcome

/-! ## SDL_kmsdrmdumb.c : pool creation and teardown -/

/-- The test `buffer->buf_id > 0`.  The declaration of `buf_id` is in
`SDL_kmsdrmvideo.h`, which is not among the sources, so its signedness is a
parameter: `sgn = true` reads the 32-bit pattern as `int`, `false` as
`uint32_t`. -/
def bufIdPositive (sgn : Bool) (v : Nat) : Bool :=
  if sgn then decide (0 < v ∧ v < 2 ^ 31) else decide (0 < v)

/-- One iteration of the creation loop (lines 58-90) on slot `b`: the flag
says whether the iteration ran to its end (`false` is `goto kmsdrm_fail_createfb`). -/
def createSlot (fd : Int) (disp : SDL_DisplayData) (o : SlotOutcome) (b : KMSDRM_DumbBuffer) :
    Bool × KMSDRM_DumbBuffer × List KCall :=
  let rc0 : drm_mode_create_dumb :=
    { b.req_create with width := disp.hdisplay, height := disp.vdisplay, bpp := 32 }
  let ev1 := [KCall.createDumb fd rc0.width rc0.height rc0.bpp o.create_ret o.handle]
  if o.create_ret < 0 then
    (false, { b with req_create := rc0, buf_id := u32 (-1) }, ev1 ++ [KCall.setError])
  else
    let rc : drm_mode_create_dumb := { rc0 with handle := o.handle, pitch := o.pitch, size := o.size }
    let ev2 := ev1 ++ [KCall.addFB fd rc.width rc.height rc.pitch rc.handle o.addfb_ret o.fb_id]
    if o.addfb_ret ≠ 0 then
      (false,
        { b with req_create := { rc with handle := u32 (-1) },
                 req_destroy_dumb := { handle := rc.handle } },
        ev2 ++ [KCall.setError])
    else
      let ev3 := ev2 ++ [KCall.mapDumb fd rc.handle o.map_ret]
      if o.map_ret < 0 then
        (false,
          { b with req_create := rc, req_destroy_dumb := { handle := rc.handle },
                   buf_id := o.fb_id, req_map := { b.req_map with handle := rc.handle } },
          ev3 ++ [KCall.setError])
      else
        let b4 : KMSDRM_DumbBuffer :=
          { b with req_create := rc, req_destroy_dumb := { handle := rc.handle },
                   buf_id := o.fb_id,
                   req_map := { b.req_map with handle := rc.handle, offset := o.offset },
                   map := o.mmap_ret }
        let ev4 := ev3 ++ [KCall.mmap fd rc.size o.offset o.mmap_ret]
        if b4.map = MAP_FAILED then (false, b4, ev4 ++ [KCall.setError]) else (true, b4, ev4)

/-- The creation loop (line 57) over the slots from index `i` on: it stops at
the first slot whose iteration jumps to the failure label and leaves the
later slots untouched. -/
def createLoop (fd : Int) (disp : SDL_DisplayData) (slot : Nat → SlotOutcome) :
    Nat → List KMSDRM_DumbBuffer → Bool × List KMSDRM_DumbBuffer × List KCall
  | _, [] => (true, [], [])
  | i, b :: bs =>
    match createSlot fd disp (slot i) b with
    | (true, b', ev) =>
      let r := createLoop fd disp slot (i + 1) bs
      (r.1, b' :: r.2.1, ev ++ r.2.2)
    | (false, b', ev) => (false, b' :: bs, ev)

/-- The three guarded release calls made for one slot, both in the failure
path (lines 107-114) and in the teardown (lines 224-231). -/
def releaseSlot (sgn : Bool) (fd : Int) (b : KMSDRM_DumbBuffer) : List KCall :=
  (if bufIdPositive sgn b.buf_id then [KCall.rmFB fd b.buf_id] else []) ++
  (if 0 < b.req_create.handle then [KCall.destroyDumb fd b.req_destroy_dumb.handle] else []) ++
  (if b.map ≠ NULL then [KCall.unmap b.map b.req_create.size] else [])

/-- The loop under the label `kmsdrm_fail_createfb` (lines 101-115): it
releases what the records name and writes no field. -/
def rollbackLoop (sgn : Bool) (fd : Int) : List KMSDRM_DumbBuffer → List KCall
  | [] => []
  | b :: bs => releaseSlot sgn fd b ++ rollbackLoop sgn fd bs

/-- The function `KMSDRM_Dumb_CreateDumbBuffers` (lines 34-118). -/
def KMSDRM_Dumb_CreateDumbBuffers (sgn : Bool) (o : CreateOracle) (s : State) : Int × State :=
  let s1 : State :=
    if s.viddata.drm_fd < 0 then
      { s with viddata := { s.viddata with drm_fd := o.open_fd },
               trace := s.trace ++ [KCall.openDev] }
    else s
  let fd := s1.viddata.drm_fd
  let s2 : State := { s1 with trace := s1.trace ++ [KCall.drmGetCap fd] }
  if !(decide (0 ≤ o.getcap_ret) && decide (o.has_dumb ≠ 0)) then
    (SDL_SetError, { s2 with trace := s2.trace ++ [KCall.setError] })
  else
    match createLoop fd s2.dispdata o.slot 0 s2.windata.dumb_buffers with
    | (true, bs, ev) =>
      (0, { s2 with
              windata := { s2.windata with dumb_buffers := bs, back_buffer := 0,
                                           front_buffer := 1, set_crtc := true,
                                           waiting_for_flip := false },
              viddata := { s2.viddata with dumb_init := true },
              trace := s2.trace ++ ev })
    | (false, bs, ev) =>
      (-1, { s2 with
              windata := { s2.windata with dumb_buffers := bs },
              trace := s2.trace ++ ev ++ rollbackLoop sgn fd bs })

/-- The three assignments that end an iteration of the teardown loop (lines 233-235). -/
def resetSlot (b : KMSDRM_DumbBuffer) : KMSDRM_DumbBuffer :=
  { b with buf_id := u32 (-1), req_create := { b.req_create with handle := u32 (-1) },
           map := MAP_FAILED }

/-- The teardown loop (lines 219-236): release, then reset, slot by slot. -/
def destroyLoop (sgn : Bool) (fd : Int) :
    List KMSDRM_DumbBuffer → List KMSDRM_DumbBuffer × List KCall
  | [] => ([], [])
  | b :: bs =>
    let r := destroyLoop sgn fd bs
    (resetSlot b :: r.1, releaseSlot sgn fd b ++ r.2)

/-- The function `KMSDRM_Dumb_DestroySurfaces` (lines 208-241). -/
def KMSDRM_Dumb_DestroySurfaces (sgn : Bool) (s : State) : State :=
  if !s.viddata.dumb_init then s
  else
    let r := destroyLoop sgn s.viddata.drm_fd s.windata.dumb_buffers
    { s with
        windata := { s.windata with dumb_buffers := r.1 },
        viddata := { s.viddata with drm_fd := -1, dumb_init := false },
        trace := s.trace ++ r.2 ++ [KCall.close s.viddata.drm_fd] }

/-! ## Collaborators defined outside the two source files -/

/-- What GBM and EGL answer when the surfaces of a window are created. -/
structure SurfaceOracle where
  gs : Nat
  egl_surface : Nat
  deriving DecidableEq, Repr

/-- Modelled from the spec: `KMSDRM_WaitPageflip` is defined in
`SDL_kmsdrmvideo.c`, which is not among the sources.  Section 4.5: "while
`pending == true`, blocks the calling thread reading the next kernel event
targeted at this output; on a malformed or error event, clears `pending` and
reports failure without retrying".  `event_ok` says whether the awaited
event arrives well formed; the flip handler clears the flag in that case. -/
def KMSDRM_WaitPageflip (event_ok : Bool) (w : SDL_WindowData) : Bool × SDL_WindowData :=
  if w.waiting_for_flip then (event_ok, { w with waiting_for_flip := false }) else (true, w)

/-- The function `KMSDRM_GBMDestroySurfaces` (SDL_kmsdrmopengles.c, lines 73-105). -/
def KMSDRM_GBMDestroySurfaces (s : State) : State :=
  let s0 : State := { s with trace := s.trace ++ [KCall.makeCurrentNone] }
  let s1 : State :=
    if s0.windata.egl_surface ≠ EGL_NO_SURFACE then
      { s0 with windata := { s0.windata with egl_surface := EGL_NO_SURFACE },
                trace := s0.trace ++ [KCall.eglDestroySurface s0.windata.egl_surface] }
    else s0
  let s2 : State :=
    if s1.windata.bo ≠ NULL then
      { s1 with windata := { s1.windata with bo := NULL },
                trace := s1.trace ++ [KCall.releaseBuffer s1.windata.gs s1.windata.bo] }
    else s1
  let s3 : State :=
    if s2.windata.next_bo ≠ NULL then
      { s2 with windata := { s2.windata with next_bo := NULL },
                trace := s2.trace ++ [KCall.releaseBuffer s2.windata.gs s2.windata.next_bo] }
    else s2
  if s3.windata.gs ≠ NULL then
    { s3 with windata := { s3.windata with gs := NULL },
              trace := s3.trace ++ [KCall.gbmSurfaceDestroy s3.windata.gs] }
  else s3

/-- Modelled from the spec: `KMSDRM_CreateSurfaces` is defined in
`SDL_kmsdrmvideo.c`, which is not among the sources.  Sections 3, 4.3 and 4.6: the
accelerated surface is "destroyed on ... display-mode change" and the present
paths "recreate surfaces if the display mode is dirty", that is, if it "has
changed since the last frame".  The model destroys the accelerated surface
with `KMSDRM_GBMDestroySurfaces`, installs the surface handles the
environment answers with and clears the dirty flag; it touches nothing else. -/
def KMSDRM_CreateSurfaces (o : SurfaceOracle) (s : State) : State :=
  let s1 := KMSDRM_GBMDestroySurfaces s
  { s1 with
      windata := { s1.windata with gs := o.gs, egl_surface := o.egl_surface,
                                   egl_surface_dirty := false },
      trace := s1.trace ++ [KCall.gbmSurfaceCreate, KCall.eglCreateSurface] }

/-! ## SDL_kmsdrmdumb.c : the software present path -/

/-- The pixel format `SDL_PIXELFORMAT_ARGB8888`. -/
def SDL_PIXELFORMAT_ARGB8888 : Nat := 372645892

/-- The function `KMSDRM_Dumb_DestroyWindowFramebuffer` (lines 199-206). -/
def KMSDRM_Dumb_DestroyWindowFramebuffer (s : State) : State :=
  match s.windata.framebuffer with
  | some sf =>
    { s with windata := { s.windata with framebuffer := none },
             trace := s.trace ++ [KCall.freeSurface sf.pixels] }
  | none => s

/-- The function `KMSDRM_Dumb_CreateWindowFramebuffer` (lines 120-144).
`created` is what `SDL_CreateRGBSurfaceWithFormat` answers; the third
component is what is stored through `format`, `pixels` and `pitch`, if anything. -/
def KMSDRM_Dumb_CreateWindowFramebuffer (created : Option SDL_Surface) (s : State) :
    Int × State × Option (Nat × Nat × Nat) :=
  if s.viddata.opengl_mode then
    (SDL_SetError, { s with trace := s.trace ++ [KCall.setError] }, none)
  else
    let s1 := KMSDRM_Dumb_DestroyWindowFramebuffer s
    let s2 : State := { s1 with trace := s1.trace ++ [KCall.createRGBSurface s1.window_w s1.window_h] }
    match created with
    | none => (-1, { s2 with trace := s2.trace ++ [KCall.setError] }, none)
    | some surf =>
      (0, { s2 with windata := { s2.windata with framebuffer := some surf } },
        some (SDL_PIXELFORMAT_ARGB8888, surf.pixels, surf.pitch))

/-- The library routine `memcpy` on byte-addressed memory: the `n` bytes from
`dst` on become the `n` bytes from `src` on. -/
def memcpy (m : Nat → Nat) (dst src n : Nat) : Nat → Nat :=
  fun a => if dst ≤ a ∧ a < dst + n then m (src + (a - dst)) else m a

/-- A dumb-buffer record with every field zero, as `SDL_calloc` leaves it. -/
def zeroBuffer : KMSDRM_DumbBuffer :=
  { req_create := { height := 0, width := 0, bpp := 0, flags := 0, handle := 0, pitch := 0, size := 0 },
    req_map := { handle := 0, pad := 0, offset := 0 },
    req_destroy_dumb := { handle := 0 },
    buf_id := 0,
    map := NULL }

/-- A surface record with every field zero. -/
def zeroSurface : SDL_Surface := { pixels := 0, pitch := 0, BytesPerPixel := 0 }

/-- A value of type `int` after an arithmetic step: 32 bits, two's
complement.  C leaves a signed result outside the range undefined; the
wrap-around of the machine is what is modelled. -/
def i32 (z : Int) : Int := (z + 2 ^ 31) % 2 ^ 32 - 2 ^ 31

/-- A pointer moved by a signed number of bytes, in a 64-bit address space. -/
def ptrAdd (p : Nat) (off : Int) : Nat := ((p + off) % 2 ^ 64).toNat

/-- An `int` passed where a `size_t` (64 bits) is expected. -/
def sizeT (z : Int) : Nat := (z % 2 ^ 64).toNat

/-- The body of the copy loop (lines 174-176) for row `i`.  The destination
offset `i * buffer->req_create.pitch` is computed in `__u32`; the source
offset `i * surf->pitch` and the byte count
`window->w * surf->format->BytesPerPixel` are products of `int`, and the
count is converted to `size_t` for `SDL_memcpy`. -/
def copyRow (buffer : KMSDRM_DumbBuffer) (surf : SDL_Surface) (w : Nat) (s : State) (i : Nat) :
    State :=
  let row_db := ptrAdd buffer.map (((i * buffer.req_create.pitch) % 2 ^ 32 : Nat) : Int)
  let row_fb := ptrAdd surf.pixels (i32 ((i : Int) * (surf.pitch : Int)))
  let n := sizeT (i32 ((w : Int) * (surf.BytesPerPixel : Int)))
  { s with mem := memcpy s.mem row_db row_fb n,
           trace := s.trace ++ [KCall.memcpy row_db row_fb n] }

/-- What the environment answers during `KMSDRM_Dumb_UpdateWindowFramebuffer`. -/
structure UpdateOracle where
  surfaces : SurfaceOracle
  wait_ok : Bool
  setcrtc_ret : Int
  flip_ret : Int
  deriving DecidableEq, Repr

/-- The function `KMSDRM_Dumb_UpdateWindowFramebuffer` (lines 146-197).
`buffer` and `surf` are taken on entry, as the C pointers are; a slot index
outside the array and a null `surf` are outside what C defines and read as
all-zero records here. -/
def KMSDRM_Dumb_UpdateWindowFramebuffer (o : UpdateOracle) (s : State) : Int × State :=
  let idx := s.windata.back_buffer
  let surf := s.windata.framebuffer.getD zeroSurface
  if s.viddata.opengl_mode then
    (SDL_SetError, { s with trace := s.trace ++ [KCall.setError] })
  else
    let set_crtc := s.windata.set_crtc || s.windata.egl_surface_dirty
    let s1 := if s.windata.egl_surface_dirty then KMSDRM_CreateSurfaces o.surfaces s else s
    if !s1.viddata.dumb_init then (-1, s1)
    else
      let s2 : State := { s1 with windata := (KMSDRM_WaitPageflip o.wait_ok s1.windata).2 }
      let buffer := s2.windata.dumb_buffers.getD idx zeroBuffer
      let s3 := (List.range s2.window_h).foldl (copyRow buffer surf s2.window_w) s2
      let fb := (s3.windata.dumb_buffers.getD s3.windata.back_buffer zeroBuffer).buf_id
      let r : Int × State :=
        if set_crtc then
          (o.setcrtc_ret,
            { s3 with windata := { s3.windata with set_crtc := false },
                      trace := s3.trace ++
                        [KCall.setCrtc s3.viddata.drm_fd s3.dispdata.crtc_id fb o.setcrtc_ret] })
        else
          (o.flip_ret,
            { s3 with
                windata := { s3.windata with
                  waiting_for_flip :=
                    if o.flip_ret = 0 then true else s3.windata.waiting_for_flip },
                trace := s3.trace ++
                  [KCall.pageFlip s3.viddata.drm_fd s3.dispdata.crtc_id fb
                    DRM_MODE_PAGE_FLIP_EVENT s3.windata.waiting_for_flip o.flip_ret] })
      (r.1, { r.2 with windata := { r.2.windata with back_buffer := r.2.windata.front_buffer,
                                                     front_buffer := r.2.windata.back_buffer } })

/-! ## SDL_kmsdrmopengles.c : the accelerated swap chain -/

/-- What the environment answers during `KMSDRM_GLES_SwapWindow`. -/
structure SwapOracle where
  surfaces : SurfaceOracle
  wait_ok : Bool
  swap_ok : Bool
  locked_bo : Nat
  fb : Option Nat
  setcrtc_ret : Int
  flip_ret : Int
  wait2_ok : Bool
  deriving DecidableEq, Repr

/-- Lines 255-261 of `KMSDRM_GLES_SwapWindow`: release the previous front
buffer if there is one, then promote `next_bo` to `bo`. -/
def releaseFront (s2 : State) : State :=
  let s3 : State :=
    if s2.windata.bo ≠ NULL then
      { s2 with windata := { s2.windata with bo := NULL },
                trace := s2.trace ++ [KCall.releaseBuffer s2.windata.gs s2.windata.bo] }
    else s2
  { s3 with windata := { s3.windata with bo := s3.windata.next_bo } }

/-- Lines 287-340 of `KMSDRM_GLES_SwapWindow`: with the framebuffer `fb_id`
of the locked buffer in hand, mode-set on the first swap (`bo` null), else
queue a flip and, with `double_buffer`, wait for it at once. -/
def presentNext (o : SwapOracle) (fb_id : Nat) (s6 : State) : Int × State :=
  if s6.windata.bo = NULL then
    let s7 : State :=
      { s6 with trace := s6.trace ++
          [KCall.setCrtc s6.viddata.drm_fd s6.dispdata.crtc_id fb_id o.setcrtc_ret] }
    if o.setcrtc_ret ≠ 0 then (0, s7) else (1, s7)
  else
    let flip_flags :=
      if s6.egl_swapinterval = 0 ∧ s6.viddata.async_pageflip_support = true then
        DRM_MODE_PAGE_FLIP_EVENT ||| DRM_MODE_PAGE_FLIP_ASYNC
      else DRM_MODE_PAGE_FLIP_EVENT
    let s7 : State :=
      { s6 with
          windata := { s6.windata with
            waiting_for_flip := if o.flip_ret = 0 then true else s6.windata.waiting_for_flip },
          trace := s6.trace ++
            [KCall.pageFlip s6.viddata.drm_fd s6.dispdata.crtc_id fb_id flip_flags
              s6.windata.waiting_for_flip o.flip_ret] }
    if s7.windata.double_buffer then
      let w2 := KMSDRM_WaitPageflip o.wait2_ok s7.windata
      let s8 : State := { s7 with windata := w2.2 }
      if !w2.1 then (0, s8) else (1, s8)
    else (1, s7)

/-- Lines 248-342 of `KMSDRM_GLES_SwapWindow`: the frame from the wait for
the previous flip on, run on the state `s1` that the optional recreation of
the surfaces (lines 243-246) leaves. -/
def swapWindowBody (o : SwapOracle) (s1 : State) : Int × State :=
  let w1 := KMSDRM_WaitPageflip o.wait_ok s1.windata
  let s2 : State := { s1 with windata := w1.2 }
  if !w1.1 then (0, s2)
  else
    let s3 := releaseFront s2
    let s4 : State :=
      { s3 with trace := s3.trace ++ [KCall.eglSwapBuffers s3.windata.egl_surface o.swap_ok] }
    if !o.swap_ok then (0, s4)
    else
      let s5 : State :=
        { s4 with windata := { s4.windata with next_bo := o.locked_bo },
                  trace := s4.trace ++ [KCall.lockFrontBuffer s4.windata.gs o.locked_bo] }
      if s5.windata.next_bo = NULL then (0, s5)
      else
        let s6 : State := { s5 with trace := s5.trace ++ [KCall.fbFromBO s5.windata.next_bo o.fb] }
        match o.fb with
        | none => (0, s6)
        | some fb_id => presentNext o fb_id s6

/-- The function `KMSDRM_GLES_SwapWindow` (lines 231-343): the surfaces are
recreated if the display mode is dirty (lines 243-246), then the frame runs. -/
def KMSDRM_GLES_SwapWindow (o : SwapOracle) (s : State) : Int × State :=
  swapWindowBody o
    (if s.windata.egl_surface_dirty then KMSDRM_CreateSurfaces o.surfaces s else s)

/-- What the environment answers during `KMSDRM_GBMInit`.  `have_gbm` is the
value of the macro `SDL_KMSDRM_HAVE_GBM`, whose definition (`SDL_kmsdrmdyn.h`)
is not among the sources; `gbm_dev` is what `gbm_create_device` returns, null
on failure. -/
structure GBMInitOracle where
  have_gbm : Bool
  open_fd : Int
  gbm_dev : Nat
  deriving DecidableEq, Repr

/-- The function `KMSDRM_GBMInit` (SDL_kmsdrmopengles.c, lines 46-71). -/
def KMSDRM_GBMInit (o : GBMInitOracle) (s : State) : Int × State :=
  if !o.have_gbm then
    (SDL_SetError, { s with trace := s.trace ++ [KCall.setError] })
  else
    let s1 : State :=
      { s with viddata := { s.viddata with drm_fd := o.open_fd },
               trace := s.trace ++ [KCall.openDev] }
    let s2 : State := { s1 with trace := s1.trace ++ [KCall.drmSetMaster s1.viddata.drm_fd] }
    let s3 : State :=
      { s2 with viddata := { s2.viddata with gbm_dev := o.gbm_dev },
                trace := s2.trace ++ [KCall.gbmCreateDevice s2.viddata.drm_fd o.gbm_dev] }
    let r : Int × State :=
      if s3.viddata.gbm_dev = NULL then
        (SDL_SetError, { s3 with trace := s3.trace ++ [KCall.setError] })
      else (0, s3)
    (r.1, { r.2 with viddata := { r.2.viddata with gbm_init := true, dumb_init := false } })

/-- The function `KMSDRM_GBMDeinit` (SDL_kmsdrmopengles.c, lines 108-126). -/
def KMSDRM_GBMDeinit (s : State) : State :=
  let s1 : State :=
    if s.viddata.gbm_dev ≠ NULL then
      { s with viddata := { s.viddata with gbm_dev := NULL },
               trace := s.trace ++ [KCall.gbmDeviceDestroy s.viddata.gbm_dev] }
    else s
  let s2 : State :=
    if 0 ≤ s1.viddata.drm_fd then
      { s1 with viddata := { s1.viddata with drm_fd := -1 },
                trace := s1.trace ++ [KCall.close s1.viddata.drm_fd] }
    else s1
  { s2 with viddata := { s2.viddata with gbm_init := false } }

/-! ## Runs of presents -/

/-- Between two frames the display mode may change, which raises
`egl_surface_dirty` (done by the mode-setting code of `SDL_kmsdrmvideo.c`). -/
def modeChange (d : Bool) (s : State) : State :=
  if d then { s with windata := { s.windata with egl_surface_dirty := true } } else s

/-- A run of software presents on one window; before each of them the
display mode may change. -/
def dumbPresents : List (Bool × UpdateOracle) → State → State
  | [], s => s
  | f :: rest, s =>
    dumbPresents rest (KMSDRM_Dumb_UpdateWindowFramebuffer f.2 (modeChange f.1 s)).2

/-! ## Reading traces -/

/-- Whether a call asks the kernel to present a framebuffer: `drmModeSetCrtc`
or `drmModePageFlip`. -/
def KCall.isPresent : KCall → Bool
  | .setCrtc _ _ _ _ => true
  | .pageFlip _ _ _ _ _ _ => true
  | _ => false

/-- Whether a call writes process memory. -/
def KCall.isWrite : KCall → Bool
  | .memcpy _ _ _ => true
  | _ => false

/-- The presentation requests of a trace, in order. -/
def presentCalls (tr : List KCall) : List KCall := tr.filter KCall.isPresent

/-- The memory writes of a trace, in order. -/
def writeCalls (tr : List KCall) : List KCall := tr.filter KCall.isWrite

/-- A kernel object a process holds: a framebuffer object, a dumb-buffer
handle, or a memory mapping. -/
inductive Resource where
  | fb (id : Nat)
  | handle (h : Nat)
  | mapping (addr size : Nat)
  deriving DecidableEq, Repr

/-- The effect of one call on the objects held: a creation call that succeeds
adds the object it returns, a release call removes the object it names if it
is held. -/
def KCall.effect (live : List Resource) : KCall → List Resource
  | .createDumb _ _ _ _ ret h => if ret < 0 then live else live ++ [Resource.handle h]
  | .addFB _ _ _ _ _ ret id => if ret ≠ 0 then live else live ++ [Resource.fb id]
  | .mmap _ size _ res => if res = MAP_FAILED then live else live ++ [Resource.mapping res size]
  | .rmFB _ id => live.erase (Resource.fb id)
  | .destroyDumb _ h => live.erase (Resource.handle h)
  | .unmap addr size => live.erase (Resource.mapping addr size)
  | _ => live

/-- The objects held after a sequence of calls, starting from `live`. -/
def liveAfter (live : List Resource) (tr : List KCall) : List Resource :=
  tr.foldl KCall.effect live

/-- The calls a function issued: the trace of the state it returned without
the trace of the state it was given. -/
def emitted (s s' : State) : List KCall := s'.trace.drop s.trace.length

/-- The four creation steps of a slot. -/
inductive CreateStep where
  | createDumb
  | addFB
  | mapDumb
  | mmap
  deriving DecidableEq, Repr

/-- All four creation steps of the slot succeed. -/
def SlotOutcome.succeeds (o : SlotOutcome) : Prop :=
  0 ≤ o.create_ret ∧ o.addfb_ret = 0 ∧ 0 ≤ o.map_ret ∧ o.mmap_ret ≠ MAP_FAILED

/-- The slot fails at step `st`, the steps before it having succeeded. -/
def SlotOutcome.failsAt (o : SlotOutcome) : CreateStep → Prop
  | .createDumb => o.create_ret < 0
  | .addFB => 0 ≤ o.create_ret ∧ o.addfb_ret ≠ 0
  | .mapDumb => 0 ≤ o.create_ret ∧ o.addfb_ret = 0 ∧ o.map_ret < 0
  | .mmap => 0 ≤ o.create_ret ∧ o.addfb_ret = 0 ∧ 0 ≤ o.map_ret ∧ o.mmap_ret = MAP_FAILED

/-- What the kernel interface guarantees about the values it returns to the
calls that are made: a dumb-buffer handle and a framebuffer id that were
granted are positive (the id below 2^31), and `mmap` does not return the null
address. -/
def SlotOutcome.validIds (o : SlotOutcome) : Prop :=
  (0 ≤ o.create_ret → 0 < o.handle) ∧
  (0 ≤ o.create_ret → o.addfb_ret = 0 → 0 < o.fb_id ∧ o.fb_id < 2 ^ 31) ∧
  (0 ≤ o.create_ret → o.addfb_ret = 0 → 0 ≤ o.map_ret → o.mmap_ret ≠ NULL)

instance (o : SlotOutcome) : Decidable o.succeeds := by
  unfold SlotOutcome.succeeds; infer_instance

instance (o : SlotOutcome) (st : CreateStep) : Decidable (o.failsAt st) := by
  cases st <;> unfold SlotOutcome.failsAt <;> infer_instance

instance (o : SlotOutcome) : Decidable o.validIds := by
  unfold SlotOutcome.validIds; infer_instance

/-! ## Record states -/

/-- The torn-down state of a record, as the teardown loop leaves it (lines
233-235): `buf_id = -1`, `handle = -1`, `map = MAP_FAILED`. -/
def KMSDRM_DumbBuffer.tornDown (b : KMSDRM_DumbBuffer) : Prop :=
  b.buf_id = u32 (-1) ∧ b.req_create.handle = u32 (-1) ∧ b.map = MAP_FAILED

/-- The fully constructed state of a record, relative to the objects held:
its framebuffer id, its handle and its mapping all name objects that are held. -/
def KMSDRM_DumbBuffer.constructed (live : List Resource) (b : KMSDRM_DumbBuffer) : Prop :=
  Resource.fb b.buf_id ∈ live ∧ Resource.handle b.req_create.handle ∈ live ∧
  Resource.mapping b.map b.req_create.size ∈ live

instance (b : KMSDRM_DumbBuffer) : Decidable b.tornDown := by
  unfold KMSDRM_DumbBuffer.tornDown; infer_instance

instance (live : List Resource) (b : KMSDRM_DumbBuffer) : Decidable (b.constructed live) := by
  unfold KMSDRM_DumbBuffer.constructed; infer_instance

/-! ## Runs of presents by either path -/

/-- One present call on a window, by the software or the accelerated path;
`dirty` says whether the display mode changed since the previous call. -/
inductive Frame where
  | dumb (dirty : Bool) (o : UpdateOracle)
  | gles (dirty : Bool) (o : SwapOracle)
  deriving DecidableEq, Repr

/-- The state after one present call. -/
def presentFrame : Frame → State → State
  | .dumb d o, s => (KMSDRM_Dumb_UpdateWindowFramebuffer o (modeChange d s)).2
  | .gles d o, s => (KMSDRM_GLES_SwapWindow o (modeChange d s)).2

/-- The state after a sequence of present calls on one window. -/
def presents : List Frame → State → State
  | [], s => s
  | f :: rest, s => presents rest (presentFrame f s)

/-- Whether a call is a `drmModePageFlip` sent while `waiting_for_flip` was set. -/
def KCall.flipWhilePending : KCall → Bool
  | .pageFlip _ _ _ _ pending _ => pending
  | _ => false

/-- The page flips of a trace that were sent while a flip was pending. -/
def pendingFlips (tr : List KCall) : List KCall := tr.filter KCall.flipWhilePending

/-! ## The presentation request of a frame -/

/-- What a list of calls asks the kernel to present: nothing, one mode-set
and no flip, one flip and no mode-set, or anything else. -/
inductive PresentKind where
  | nothing
  | modeset
  | flip
  | mixed
  deriving DecidableEq, Repr

/-- The kind of the presentation requests among `evs`. -/
def presentKind (evs : List KCall) : PresentKind :=
  match presentCalls evs with
  | [] => PresentKind.nothing
  | [KCall.setCrtc _ _ _ _] => PresentKind.modeset
  | [KCall.pageFlip _ _ _ _ _ _] => PresentKind.flip
  | _ => PresentKind.mixed

/-- The kinds of the presentation requests of the calls of a run, in order. -/
def swapRunKinds : List (Bool × SwapOracle) → State → List PresentKind
  | [], _ => []
  | f :: rest, s =>
    let s1 := modeChange f.1 s
    let r := KMSDRM_GLES_SwapWindow f.2 s1
    presentKind (emitted s1 r.2) :: swapRunKinds rest r.2

/-! ## Concrete inputs -/

/-- A window as `SDL_calloc` leaves it, on a 1920x1080 display, with no
descriptor open. -/
def freshState : State :=
  { windata :=
      { dumb_buffers := [zeroBuffer, zeroBuffer], back_buffer := 0, front_buffer := 0,
        set_crtc := false, waiting_for_flip := false, egl_surface_dirty := false,
        double_buffer := false, framebuffer := some { pixels := 65536, pitch := 7680, BytesPerPixel := 4 },
        egl_surface := EGL_NO_SURFACE, gs := NULL, bo := NULL, next_bo := NULL },
    viddata :=
      { drm_fd := -1, dumb_init := false, gbm_init := false, opengl_mode := false,
        async_pageflip_support := false, gbm_dev := NULL },
    dispdata := { hdisplay := 1920, vdisplay := 1080, crtc_id := 40, connector_id := 50 },
    window_w := 1920,
    window_h := 1080,
    egl_swapinterval := 1,
    mem := fun _ => 0,
    trace := [] }

/-- A kernel that grants slot `i` handle `i + 1`, framebuffer `i + 10` and
a mapping of 8294400 bytes at `(i + 1) * 16777216`. -/
def grantSlot (i : Nat) : SlotOutcome :=
  { create_ret := 0, handle := i + 1, pitch := 7680, size := 8294400,
    addfb_ret := 0, fb_id := i + 10, map_ret := 0, offset := i * 8294400,
    mmap_ret := (i + 1) * 16777216 }

/-- Every creation step succeeds. -/
def grantAll : CreateOracle :=
  { open_fd := 3, getcap_ret := 0, has_dumb := 1, slot := grantSlot }

/-- A frame in which the wait, the mode-set and the flip all succeed. -/
def goodFrame : UpdateOracle :=
  { surfaces := { gs := 4096, egl_surface := 8192 }, wait_ok := true, setcrtc_ret := 0,
    flip_ret := 0 }

/-- A frame in which the wait fails and the kernel rejects mode-set and flip. -/
def badFrame : UpdateOracle :=
  { surfaces := { gs := 4096, egl_surface := 8192 }, wait_ok := false, setcrtc_ret := -22,
    flip_ret := -16 }

/-- The kernel of `grantAll`, except that `drmModeAddFB` fails for slot 1. -/
def addfbFailsAtSlot1 : CreateOracle :=
  { open_fd := 3, getcap_ret := 0, has_dumb := 1,
    slot := fun i => if i = 1 then { grantSlot 1 with addfb_ret := -22 } else grantSlot i }

/-- The state `freshState` after a successful pool creation. -/
def readyState : State := (KMSDRM_Dumb_CreateDumbBuffers false grantAll freshState).2

/-- The state `readyState` of a window that uses the accelerated path. -/
def acceleratedState : State :=
  { readyState with viddata := { readyState.viddata with opengl_mode := true } }

/-- The state `readyState` once the first mode-set is done: `set_crtc` clear. -/
def flippedState : State :=
  { readyState with windata := { readyState.windata with set_crtc := false } }

/-- A kernel that refuses the first `DRM_IOCTL_MODE_CREATE_DUMB`. -/
def createFailsAtSlot0 : CreateOracle :=
  { open_fd := 3, getcap_ret := 0, has_dumb := 1,
    slot := fun i => { grantSlot i with create_ret := -12, handle := 0, pitch := 0, size := 0 } }

/-- The state `freshState` after the creation in which `drmModeAddFB` fails for slot 1. -/
def failedState : State := (KMSDRM_Dumb_CreateDumbBuffers false addfbFailsAtSlot1 freshState).2

/-- A window of the accelerated path whose surfaces were just created:
`bo = next_bo = NULL`, no flip pending. -/
def freshSurface : State :=
  { freshState with
      windata := { freshState.windata with gs := 4096, egl_surface := 8192 },
      viddata := { freshState.viddata with drm_fd := 3, gbm_init := true, opengl_mode := true,
                                           gbm_dev := 1024 } }

/-- A frame of the accelerated path in which every step succeeds; the buffer
locked is `bo` and its framebuffer id is `bo + 1`. -/
def goodSwap (bo : Nat) : SwapOracle :=
  { surfaces := { gs := 4096, egl_surface := 8192 }, wait_ok := true, swap_ok := true,
    locked_bo := bo, fb := some (bo + 1), setcrtc_ret := 0, flip_ret := 0, wait2_ok := true }

/-- A frame in which `KMSDRM_FBFromBO` fails for the buffer just locked. -/
def fbLookupFails (bo : Nat) : SwapOracle := { goodSwap bo with fb := none }

/-- A frame in which `gbm_surface_lock_front_buffer` fails. -/
def lockFails : SwapOracle := { goodSwap 0 with locked_bo := NULL, fb := none }

/-- A frame in which the wait for the previous flip fails. -/
def waitFails (bo : Nat) : SwapOracle := { goodSwap bo with wait_ok := false }

/-- A window of the accelerated path in mid-run: buffer 100 is displayed,
a flip to buffer 200 is pending. -/
def flippingSurface : State :=
  { freshSurface with
      windata := { freshSurface.windata with bo := 100, next_bo := 200,
                                             waiting_for_flip := true } }

/-- The environment of `KMSDRM_GBMInit` in which `gbm_create_device` fails. -/
def gbmDeviceFails : GBMInitOracle := { have_gbm := true, open_fd := 5, gbm_dev := NULL }

/-- The environment of `KMSDRM_GBMInit` in which `gbm_create_device` succeeds. -/
def gbmDeviceGranted : GBMInitOracle := { have_gbm := true, open_fd := 5, gbm_dev := 1024 }

/-- The state `readyState` with memory painted so that the byte at address
`a` is `a mod 251`. -/
def paintedState : State := { readyState with mem := fun a => a % 251 }

/-- A window of `w` by `h` pixels of 4 bytes whose pool is initialized and
whose first mode-set is done: the surface at `pixels` with pitch `ps`, the
back buffer (slot 0) mapped at `bmap` with pitch `pd` and `bsize` bytes, the
front buffer (slot 1) mapped at `fmap` with the same pitch and size, memory
painted as in `paintedState`. -/
def copyState (w h pixels ps bmap pd bsize fmap : Nat) : State :=
  { paintedState with
      windata :=
        { paintedState.windata with
            dumb_buffers :=
              [{ zeroBuffer with
                   req_create := { zeroBuffer.req_create with handle := 1, pitch := pd,
                                                               size := bsize },
                   buf_id := 10, map := bmap },
               { zeroBuffer with
                   req_create := { zeroBuffer.req_create with handle := 2, pitch := pd,
                                                               size := bsize },
                   buf_id := 11, map := fmap }],
            set_crtc := false,
            framebuffer := some { pixels := pixels, pitch := ps, BytesPerPixel := 4 } },
      window_w := w,
      window_h := h }

/-- Three rows of one pixel into a back buffer whose pitch is `2 ^ 31 + 16`:
the offset of row 2 does not fit in 32 bits. -/
def widePitchState : State :=
  copyState 1 3 4096 4 (2 ^ 33) (2 ^ 31 + 16) (3 * (2 ^ 31 + 16)) (2 ^ 35)

/-- Three rows of one pixel from a surface at `2 ^ 32` whose pitch is
`2 ^ 30`: the offset of row 2 does not fit in an `int`. -/
def wideSurfaceState : State :=
  copyState 1 3 (2 ^ 32) (2 ^ 30) (2 ^ 34) 4 12 (2 ^ 35)

/-- A window two rows high on buffers that hold one row of one pixel, the
front buffer mapped right after the back buffer. -/
def tallWindowState : State := copyState 1 2 4096 4 65536 4 4 65540

/-- Two rows of one pixel from a surface whose second row is the first row
of the back buffer's mapping. -/
def overlaidSurfaceState : State := copyState 1 2 65532 4 65536 4 8 131072

/-- What `KMSDRM_GBMDestroySurfaces` leaves alone, and the two buffer objects
it drops. -/
theorem GBMDestroySurfaces_frame (s : State) :
    (KMSDRM_GBMDestroySurfaces s).viddata = s.viddata ∧
    (KMSDRM_GBMDestroySurfaces s).dispdata = s.dispdata ∧
    (KMSDRM_GBMDestroySurfaces s).mem = s.mem ∧
    (KMSDRM_GBMDestroySurfaces s).window_w = s.window_w ∧
    (KMSDRM_GBMDestroySurfaces s).window_h = s.window_h ∧
    (KMSDRM_GBMDestroySurfaces s).egl_swapinterval = s.egl_swapinterval ∧
    (KMSDRM_GBMDestroySurfaces s).windata.dumb_buffers = s.windata.dumb_buffers ∧
    (KMSDRM_GBMDestroySurfaces s).windata.back_buffer = s.windata.back_buffer ∧
    (KMSDRM_GBMDestroySurfaces s).windata.front_buffer = s.windata.front_buffer ∧
    (KMSDRM_GBMDestroySurfaces s).windata.set_crtc = s.windata.set_crtc ∧
    (KMSDRM_GBMDestroySurfaces s).windata.waiting_for_flip = s.windata.waiting_for_flip ∧
    (KMSDRM_GBMDestroySurfaces s).windata.double_buffer = s.windata.double_buffer ∧
    (KMSDRM_GBMDestroySurfaces s).windata.framebuffer = s.windata.framebuffer ∧
    (KMSDRM_GBMDestroySurfaces s).windata.bo = NULL ∧
    (KMSDRM_GBMDestroySurfaces s).windata.next_bo = NULL := by
  unfold KMSDRM_GBMDestroySurfaces
  simp only []
  split_ifs <;> simp_all

/-- What `KMSDRM_CreateSurfaces` leaves alone; afterwards `bo` and `next_bo`
are null and the dirty flag is clear. -/
theorem CreateSurfaces_frame (o : SurfaceOracle) (s : State) :
    (KMSDRM_CreateSurfaces o s).viddata = s.viddata ∧
    (KMSDRM_CreateSurfaces o s).dispdata = s.dispdata ∧
    (KMSDRM_CreateSurfaces o s).mem = s.mem ∧
    (KMSDRM_CreateSurfaces o s).window_w = s.window_w ∧
    (KMSDRM_CreateSurfaces o s).window_h = s.window_h ∧
    (KMSDRM_CreateSurfaces o s).egl_swapinterval = s.egl_swapinterval ∧
    (KMSDRM_CreateSurfaces o s).windata.dumb_buffers = s.windata.dumb_buffers ∧
    (KMSDRM_CreateSurfaces o s).windata.back_buffer = s.windata.back_buffer ∧
    (KMSDRM_CreateSurfaces o s).windata.front_buffer = s.windata.front_buffer ∧
    (KMSDRM_CreateSurfaces o s).windata.set_crtc = s.windata.set_crtc ∧
    (KMSDRM_CreateSurfaces o s).windata.waiting_for_flip = s.windata.waiting_for_flip ∧
    (KMSDRM_CreateSurfaces o s).windata.double_buffer = s.windata.double_buffer ∧
    (KMSDRM_CreateSurfaces o s).windata.framebuffer = s.windata.framebuffer ∧
    (KMSDRM_CreateSurfaces o s).windata.bo = NULL ∧
    (KMSDRM_CreateSurfaces o s).windata.next_bo = NULL ∧
    (KMSDRM_CreateSurfaces o s).windata.egl_surface_dirty = false := by
  have h := GBMDestroySurfaces_frame s
  simp only [KMSDRM_CreateSurfaces]
  simp_all

/-- The copy loop writes memory and nothing else. -/
theorem copyRows_frame (b : KMSDRM_DumbBuffer) (sf : SDL_Surface) (w : Nat) (l : List Nat)
    (s : State) :
    (l.foldl (copyRow b sf w) s).windata = s.windata ∧
    (l.foldl (copyRow b sf w) s).viddata = s.viddata ∧
    (l.foldl (copyRow b sf w) s).dispdata = s.dispdata ∧
    (l.foldl (copyRow b sf w) s).window_w = s.window_w ∧
    (l.foldl (copyRow b sf w) s).window_h = s.window_h ∧
    (l.foldl (copyRow b sf w) s).egl_swapinterval = s.egl_swapinterval := by
  induction l generalizing s with
  | nil => simp
  | cons i l ih =>
    have h := ih (copyRow b sf w s i)
    simp only [List.foldl_cons]
    simpa [copyRow] using h

/-- After the wait, successful or not, no flip is pending. -/
theorem WaitPageflip_frame (ok : Bool) (w : SDL_WindowData) :
    (KMSDRM_WaitPageflip ok w).2 = { w with waiting_for_flip := false } := by
  unfold KMSDRM_WaitPageflip
  cases h : w.waiting_for_flip <;> simp [h]
  cases w; simp_all

/-- The windata after a present that is not rejected. -/
theorem Update_windata (o : UpdateOracle) (s : State)
    (hgl : s.viddata.opengl_mode = false) (hinit : s.viddata.dumb_init = true) :
    (KMSDRM_Dumb_UpdateWindowFramebuffer o s).2.windata.back_buffer = s.windata.front_buffer ∧
    (KMSDRM_Dumb_UpdateWindowFramebuffer o s).2.windata.front_buffer = s.windata.back_buffer := by
  have hc := CreateSurfaces_frame o.surfaces s
  unfold KMSDRM_Dumb_UpdateWindowFramebuffer
  simp only [hgl, Bool.false_eq_true, if_false]
  by_cases hd : s.windata.egl_surface_dirty = true
  · simp only [hd, if_true, hc.1, hinit, Bool.not_true, Bool.false_eq_true, if_false]
    split_ifs <;> simp [copyRows_frame, WaitPageflip_frame, hc]
  · simp only [hd, if_false, hinit, Bool.not_true, Bool.false_eq_true]
    split_ifs <;> simp [copyRows_frame, WaitPageflip_frame]

/-- A rejected present: the result is -1 and nothing but the surfaces and the
trace may differ. -/
theorem Update_rejected (o : UpdateOracle) (s : State)
    (h : s.viddata.opengl_mode = true ∨ s.viddata.dumb_init = false) :
    (KMSDRM_Dumb_UpdateWindowFramebuffer o s).1 = -1 ∧
    (KMSDRM_Dumb_UpdateWindowFramebuffer o s).2.windata.back_buffer = s.windata.back_buffer ∧
    (KMSDRM_Dumb_UpdateWindowFramebuffer o s).2.windata.front_buffer = s.windata.front_buffer ∧
    (KMSDRM_Dumb_UpdateWindowFramebuffer o s).2.windata.set_crtc = s.windata.set_crtc ∧
    (KMSDRM_Dumb_UpdateWindowFramebuffer o s).2.windata.dumb_buffers = s.windata.dumb_buffers ∧
    (KMSDRM_Dumb_UpdateWindowFramebuffer o s).2.mem = s.mem ∧
    (KMSDRM_Dumb_UpdateWindowFramebuffer o s).2.viddata = s.viddata := by
  have hc := CreateSurfaces_frame o.surfaces s
  unfold KMSDRM_Dumb_UpdateWindowFramebuffer
  by_cases hgl : s.viddata.opengl_mode = true
  · simp [hgl, SDL_SetError]
  · have hinit : s.viddata.dumb_init = false := by
      rcases h with h | h
      · exact absurd h hgl
      · exact h
    simp only [hgl, if_false]
    by_cases hd : s.windata.egl_surface_dirty = true
    · simp [hd, hc, hinit]
    · simp [hd, hinit]

/-- The five assignments that end a successful creation (lines 93-97). -/
theorem Create_success (sgn : Bool) (o : CreateOracle) (s : State)
    (h : (KMSDRM_Dumb_CreateDumbBuffers sgn o s).1 = 0) :
    (KMSDRM_Dumb_CreateDumbBuffers sgn o s).2.windata.back_buffer = 0 ∧
    (KMSDRM_Dumb_CreateDumbBuffers sgn o s).2.windata.front_buffer = 1 ∧
    (KMSDRM_Dumb_CreateDumbBuffers sgn o s).2.windata.set_crtc = true ∧
    (KMSDRM_Dumb_CreateDumbBuffers sgn o s).2.windata.waiting_for_flip = false ∧
    (KMSDRM_Dumb_CreateDumbBuffers sgn o s).2.viddata.dumb_init = true ∧
    (KMSDRM_Dumb_CreateDumbBuffers sgn o s).2.viddata.opengl_mode = s.viddata.opengl_mode := by
  revert h
  unfold KMSDRM_Dumb_CreateDumbBuffers
  simp only []
  split_ifs <;> first | (simp [SDL_SetError]; done) | (split <;> simp)

/-- A mode change touches no index and no field of the video data. -/
theorem modeChange_frame (d : Bool) (s : State) :
    (modeChange d s).viddata = s.viddata ∧
    (modeChange d s).windata.back_buffer = s.windata.back_buffer ∧
    (modeChange d s).windata.front_buffer = s.windata.front_buffer := by
  unfold modeChange
  split_ifs <;> simp

/-- A present never writes the video data. -/
theorem Update_viddata (o : UpdateOracle) (s : State) :
    (KMSDRM_Dumb_UpdateWindowFramebuffer o s).2.viddata = s.viddata := by
  by_cases h : s.viddata.opengl_mode = true ∨ s.viddata.dumb_init = false
  · exact (Update_rejected o s h).2.2.2.2.2.2
  · have hgl : s.viddata.opengl_mode = false := by
      cases hh : s.viddata.opengl_mode <;> simp_all
    have hinit : s.viddata.dumb_init = true := by
      cases hh : s.viddata.dumb_init <;> simp_all
    have hc := CreateSurfaces_frame o.surfaces s
    unfold KMSDRM_Dumb_UpdateWindowFramebuffer
    simp only [hgl, Bool.false_eq_true, if_false]
    by_cases hd : s.windata.egl_surface_dirty = true
    · simp only [hd, if_true, hc.1, hinit, Bool.not_true, Bool.false_eq_true, if_false]
      split_ifs <;> simp [copyRows_frame, hc]
    · simp only [hd, if_false, hinit, Bool.not_true, Bool.false_eq_true]
      split_ifs <;> simp [copyRows_frame]

/-- Whatever a present returns, it either keeps the two indices or exchanges them. -/
theorem Update_indices (o : UpdateOracle) (s : State) :
    ((KMSDRM_Dumb_UpdateWindowFramebuffer o s).2.windata.back_buffer = s.windata.back_buffer ∧
     (KMSDRM_Dumb_UpdateWindowFramebuffer o s).2.windata.front_buffer = s.windata.front_buffer) ∨
    ((KMSDRM_Dumb_UpdateWindowFramebuffer o s).2.windata.back_buffer = s.windata.front_buffer ∧
     (KMSDRM_Dumb_UpdateWindowFramebuffer o s).2.windata.front_buffer = s.windata.back_buffer) := by
  by_cases h : s.viddata.opengl_mode = true ∨ s.viddata.dumb_init = false
  · have hr := Update_rejected o s h
    exact Or.inl ⟨hr.2.1, hr.2.2.1⟩
  · have hgl : s.viddata.opengl_mode = false := by
      cases hh : s.viddata.opengl_mode <;> simp_all
    have hinit : s.viddata.dumb_init = true := by
      cases hh : s.viddata.dumb_init <;> simp_all
    exact Or.inr (Update_windata o s hgl hinit)

/-- The two indices stay different along any run of presents. -/
theorem dumbPresents_distinct (frames : List (Bool × UpdateOracle)) (s : State)
    (hne : s.windata.back_buffer ≠ s.windata.front_buffer) :
    (dumbPresents frames s).windata.back_buffer ≠ (dumbPresents frames s).windata.front_buffer := by
  induction frames generalizing s with
  | nil => simpa [dumbPresents] using hne
  | cons f rest ih =>
    simp only [dumbPresents]
    apply ih
    have hm := modeChange_frame f.1 s
    rcases Update_indices f.2 (modeChange f.1 s) with h | h
    · rw [h.1, h.2, hm.2.1, hm.2.2]; exact hne
    · rw [h.1, h.2, hm.2.1, hm.2.2]; exact fun e => hne e.symm

/-- C1: a successful `KMSDRM_Dumb_CreateDumbBuffers` sets `back_buffer = 0` and
`front_buffer = 1`, so the two differ; every `KMSDRM_Dumb_UpdateWindowFramebuffer`
started with `back_buffer ≠ front_buffer` ends with `back_buffer ≠ front_buffer`,
whatever it returns; hence the two differ after any run of presents that
follows a successful creation. -/
theorem C1_back_front_distinct (sgn : Bool) (co : CreateOracle) (s0 : State)
    (uo : UpdateOracle) (s : State) (frames : List (Bool × UpdateOracle))
    (hcreate : (KMSDRM_Dumb_CreateDumbBuffers sgn co s0).1 = 0)
    (hne : s.windata.back_buffer ≠ s.windata.front_buffer) :
    ((KMSDRM_Dumb_CreateDumbBuffers sgn co s0).2.windata.back_buffer = 0 ∧
     (KMSDRM_Dumb_CreateDumbBuffers sgn co s0).2.windata.front_buffer = 1 ∧
     (KMSDRM_Dumb_CreateDumbBuffers sgn co s0).2.windata.back_buffer ≠
       (KMSDRM_Dumb_CreateDumbBuffers sgn co s0).2.windata.front_buffer) ∧
    (KMSDRM_Dumb_UpdateWindowFramebuffer uo s).2.windata.back_buffer ≠
      (KMSDRM_Dumb_UpdateWindowFramebuffer uo s).2.windata.front_buffer ∧
    (dumbPresents frames (KMSDRM_Dumb_CreateDumbBuffers sgn co s0).2).windata.back_buffer ≠
      (dumbPresents frames (KMSDRM_Dumb_CreateDumbBuffers sgn co s0).2).windata.front_buffer := by
  have hc := Create_success sgn co s0 hcreate
  have h01 : (KMSDRM_Dumb_CreateDumbBuffers sgn co s0).2.windata.back_buffer ≠
      (KMSDRM_Dumb_CreateDumbBuffers sgn co s0).2.windata.front_buffer := by
    rw [hc.1, hc.2.1]; decide
  refine ⟨⟨hc.1, hc.2.1, h01⟩, ?_, dumbPresents_distinct frames _ h01⟩
  rcases Update_indices uo s with h | h
  · rw [h.1, h.2]; exact hne
  · rw [h.1, h.2]; exact fun e => hne e.symm

/-- Along a run of presents that are not rejected the two indices alternate.
-/
theorem dumbPresents_indices (frames : List (Bool × UpdateOracle)) (s : State)
    (hgl : s.viddata.opengl_mode = false) (hinit : s.viddata.dumb_init = true) :
    (dumbPresents frames s).windata.back_buffer =
      (if frames.length % 2 = 0 then s.windata.back_buffer else s.windata.front_buffer) ∧
    (dumbPresents frames s).windata.front_buffer =
      (if frames.length % 2 = 0 then s.windata.front_buffer else s.windata.back_buffer) := by
  induction frames generalizing s with
  | nil => simp [dumbPresents]
  | cons f rest ih =>
    have hm := modeChange_frame f.1 s
    have hv := Update_viddata f.2 (modeChange f.1 s)
    have hw := Update_windata f.2 (modeChange f.1 s) (by rw [hm.1]; exact hgl)
      (by rw [hm.1]; exact hinit)
    have h := ih (KMSDRM_Dumb_UpdateWindowFramebuffer f.2 (modeChange f.1 s)).2
      (by rw [hv, hm.1]; exact hgl) (by rw [hv, hm.1]; exact hinit)
    simp only [dumbPresents, List.length_cons]
    rw [h.1, h.2, hw.1, hw.2, hm.2.1, hm.2.2]
    have h2 : rest.length % 2 = 0 ∨ rest.length % 2 = 1 := by omega
    rcases h2 with h2 | h2
    · have h3 : (rest.length + 1) % 2 = 1 := by omega
      simp [h2, h3]
    · have h3 : (rest.length + 1) % 2 = 0 := by omega
      simp [h2, h3]

/-- C2: a present that is not rejected up front (`opengl_mode` clear,
`dumb_init` set) exchanges `back_buffer` and `front_buffer`, for every answer
to the wait, the mode-set and the flip; hence after a successful creation the
state entering the n-th present of a run has `back_buffer = n mod 2` and
`front_buffer = (n + 1) mod 2`: 0, 1, 0, 1 over three presents. -/
theorem C2_presents_alternate (sgn : Bool) (co : CreateOracle) (s0 : State)
    (uo : UpdateOracle) (s : State) (frames : List (Bool × UpdateOracle))
    (hcreate : (KMSDRM_Dumb_CreateDumbBuffers sgn co s0).1 = 0)
    (hgl0 : s0.viddata.opengl_mode = false)
    (hgl : s.viddata.opengl_mode = false) (hinit : s.viddata.dumb_init = true) :
    ((KMSDRM_Dumb_UpdateWindowFramebuffer uo s).2.windata.back_buffer = s.windata.front_buffer ∧
     (KMSDRM_Dumb_UpdateWindowFramebuffer uo s).2.windata.front_buffer = s.windata.back_buffer) ∧
    (dumbPresents frames (KMSDRM_Dumb_CreateDumbBuffers sgn co s0).2).windata.back_buffer =
      frames.length % 2 ∧
    (dumbPresents frames (KMSDRM_Dumb_CreateDumbBuffers sgn co s0).2).windata.front_buffer =
      (frames.length + 1) % 2 := by
  have hc := Create_success sgn co s0 hcreate
  have h := dumbPresents_indices frames (KMSDRM_Dumb_CreateDumbBuffers sgn co s0).2
    (by rw [hc.2.2.2.2.2]; exact hgl0) hc.2.2.2.2.1
  refine ⟨Update_windata uo s hgl hinit, ?_, ?_⟩
  · rw [h.1, hc.1, hc.2.1]
    have h2 : frames.length % 2 = 0 ∨ frames.length % 2 = 1 := by omega
    rcases h2 with h2 | h2 <;> simp [h2]
  · rw [h.2, hc.1, hc.2.1]
    have h2 : frames.length % 2 = 0 ∨ frames.length % 2 = 1 := by omega
    rcases h2 with h2 | h2
    · have h3 : (frames.length + 1) % 2 = 1 := by omega
      simp [h2, h3]
    · have h3 : (frames.length + 1) % 2 = 0 := by omega
      simp [h2, h3]

/-- C1 at a concrete input: after a successful creation on a 1920x1080
display, a present in which the wait fails and the kernel rejects the
mode-set still leaves the two indices different. -/
theorem C1_witness :
    (KMSDRM_Dumb_UpdateWindowFramebuffer badFrame
        (KMSDRM_Dumb_CreateDumbBuffers false grantAll freshState).2).2.windata.back_buffer ≠
      (KMSDRM_Dumb_UpdateWindowFramebuffer badFrame
        (KMSDRM_Dumb_CreateDumbBuffers false grantAll freshState).2).2.windata.front_buffer :=
  (C1_back_front_distinct false grantAll freshState badFrame
    (KMSDRM_Dumb_CreateDumbBuffers false grantAll freshState).2 [] (by decide) (by decide)).2.1

/-- C2 at a concrete input: after a successful creation on a 1920x1080
display the back index is 0, and after one, two and three presents (one of
them with every kernel call failing, one after a mode change) it is 1, 0, 1. -/
theorem C2_witness :
    (dumbPresents []
      (KMSDRM_Dumb_CreateDumbBuffers false grantAll freshState).2).windata.back_buffer = 0 ∧
    (dumbPresents [(false, goodFrame)]
      (KMSDRM_Dumb_CreateDumbBuffers false grantAll freshState).2).windata.back_buffer = 1 ∧
    (dumbPresents [(false, goodFrame), (false, badFrame)]
      (KMSDRM_Dumb_CreateDumbBuffers false grantAll freshState).2).windata.back_buffer = 0 ∧
    (dumbPresents [(false, goodFrame), (false, badFrame), (true, goodFrame)]
      (KMSDRM_Dumb_CreateDumbBuffers false grantAll freshState).2).windata.back_buffer = 1 :=
  ⟨(C2_presents_alternate false grantAll freshState goodFrame
      (KMSDRM_Dumb_CreateDumbBuffers false grantAll freshState).2 []
      (by decide) (by decide) (by decide) (by decide)).2.1,
   (C2_presents_alternate false grantAll freshState goodFrame
      (KMSDRM_Dumb_CreateDumbBuffers false grantAll freshState).2 [(false, goodFrame)]
      (by decide) (by decide) (by decide) (by decide)).2.1,
   (C2_presents_alternate false grantAll freshState goodFrame
      (KMSDRM_Dumb_CreateDumbBuffers false grantAll freshState).2
      [(false, goodFrame), (false, badFrame)]
      (by decide) (by decide) (by decide) (by decide)).2.1,
   (C2_presents_alternate false grantAll freshState goodFrame
      (KMSDRM_Dumb_CreateDumbBuffers false grantAll freshState).2
      [(false, goodFrame), (false, badFrame), (true, goodFrame)]
      (by decide) (by decide) (by decide) (by decide)).2.1⟩

/-- The call `KMSDRM_GBMDestroySurfaces` issues no presentation request and no
memory write. -/
theorem GBMDestroySurfaces_trace (s : State) :
    presentCalls (KMSDRM_GBMDestroySurfaces s).trace = presentCalls s.trace ∧
    writeCalls (KMSDRM_GBMDestroySurfaces s).trace = writeCalls s.trace := by
  unfold KMSDRM_GBMDestroySurfaces presentCalls writeCalls
  simp only []
  split_ifs <;> simp [List.filter_append, KCall.isPresent, KCall.isWrite]

/-- The call `KMSDRM_CreateSurfaces` issues no presentation request and no
memory write. -/
theorem CreateSurfaces_trace (o : SurfaceOracle) (s : State) :
    presentCalls (KMSDRM_CreateSurfaces o s).trace = presentCalls s.trace ∧
    writeCalls (KMSDRM_CreateSurfaces o s).trace = writeCalls s.trace := by
  have h := GBMDestroySurfaces_trace s
  unfold presentCalls writeCalls at *
  simp only [KMSDRM_CreateSurfaces, List.filter_append]
  simp [h.1, h.2, KCall.isPresent, KCall.isWrite]

/-- The copy loop issues no presentation request. -/
theorem copyRows_trace (b : KMSDRM_DumbBuffer) (sf : SDL_Surface) (w : Nat) (l : List Nat)
    (s : State) :
    presentCalls (l.foldl (copyRow b sf w) s).trace = presentCalls s.trace := by
  induction l generalizing s with
  | nil => simp
  | cons i l ih =>
    simp only [List.foldl_cons]
    rw [ih]
    simp [copyRow, presentCalls, List.filter_append, KCall.isPresent]

/-- The presentation requests of a concatenation. -/
theorem presentCalls_append (a b : List KCall) :
    presentCalls (a ++ b) = presentCalls a ++ presentCalls b := by
  simp [presentCalls]

/-- A mode-set is a presentation request. -/
theorem presentCalls_setCrtc (fd : Int) (c f : Nat) (r : Int) :
    presentCalls [KCall.setCrtc fd c f r] = [KCall.setCrtc fd c f r] := rfl

/-- A flip is a presentation request. -/
theorem presentCalls_pageFlip (fd : Int) (c f g : Nat) (p : Bool) (r : Int) :
    presentCalls [KCall.pageFlip fd c f g p r] = [KCall.pageFlip fd c f g p r] := rfl

/-- C9: in a present that is not rejected, if `set_crtc` is set or the
display mode is dirty, the only presentation request issued is one
`drmModeSetCrtc` with the framebuffer id of the back buffer, and afterwards
`waiting_for_flip` is false, `set_crtc` is false (cleared whether or not the
mode-set succeeds) and the mode-set result is returned; otherwise the only
request is one `drmModePageFlip` with that framebuffer id, sent while no flip
is pending, `waiting_for_flip` ends true exactly when the flip returned 0, and
the flip result is returned. -/
theorem C9_modeset_or_flip (o : UpdateOracle) (s : State)
    (hgl : s.viddata.opengl_mode = false) (hinit : s.viddata.dumb_init = true) :
    (s.windata.set_crtc = true ∨ s.windata.egl_surface_dirty = true →
      presentCalls (KMSDRM_Dumb_UpdateWindowFramebuffer o s).2.trace =
        presentCalls s.trace ++
          [KCall.setCrtc s.viddata.drm_fd s.dispdata.crtc_id
            (s.windata.dumb_buffers.getD s.windata.back_buffer zeroBuffer).buf_id o.setcrtc_ret] ∧
      (KMSDRM_Dumb_UpdateWindowFramebuffer o s).2.windata.waiting_for_flip = false ∧
      (KMSDRM_Dumb_UpdateWindowFramebuffer o s).2.windata.set_crtc = false ∧
      (KMSDRM_Dumb_UpdateWindowFramebuffer o s).1 = o.setcrtc_ret) ∧
    (s.windata.set_crtc = false ∧ s.windata.egl_surface_dirty = false →
      presentCalls (KMSDRM_Dumb_UpdateWindowFramebuffer o s).2.trace =
        presentCalls s.trace ++
          [KCall.pageFlip s.viddata.drm_fd s.dispdata.crtc_id
            (s.windata.dumb_buffers.getD s.windata.back_buffer zeroBuffer).buf_id
            DRM_MODE_PAGE_FLIP_EVENT false o.flip_ret] ∧
      ((KMSDRM_Dumb_UpdateWindowFramebuffer o s).2.windata.waiting_for_flip = true ↔
        o.flip_ret = 0) ∧
      (KMSDRM_Dumb_UpdateWindowFramebuffer o s).2.windata.set_crtc = false ∧
      (KMSDRM_Dumb_UpdateWindowFramebuffer o s).1 = o.flip_ret) := by
  have hc := CreateSurfaces_frame o.surfaces s
  have ht := CreateSurfaces_trace o.surfaces s
  constructor
  · intro h
    unfold KMSDRM_Dumb_UpdateWindowFramebuffer
    simp only [hgl, Bool.false_eq_true, if_false]
    by_cases hd : s.windata.egl_surface_dirty = true
    · simp [hd, hc, hinit, copyRows_frame, WaitPageflip_frame, presentCalls_append,
        copyRows_trace, ht, presentCalls_setCrtc, presentCalls_pageFlip]
    · have hs : s.windata.set_crtc = true := by
        rcases h with h | h
        · exact h
        · exact absurd h hd
      simp [hd, hs, hinit, copyRows_frame, WaitPageflip_frame, presentCalls_append,
        copyRows_trace, presentCalls_setCrtc, presentCalls_pageFlip]
  · intro h
    unfold KMSDRM_Dumb_UpdateWindowFramebuffer
    simp only [hgl, Bool.false_eq_true, if_false]
    by_cases hf : o.flip_ret = 0
    · simp [h.1, h.2, hinit, hf, copyRows_frame, WaitPageflip_frame, presentCalls_append,
        copyRows_trace, presentCalls_setCrtc, presentCalls_pageFlip]
    · simp [h.1, h.2, hinit, hf, copyRows_frame, WaitPageflip_frame, presentCalls_append,
        copyRows_trace, presentCalls_setCrtc, presentCalls_pageFlip]

/-- C10: with acceleration active (`opengl_mode`) or the pool uninitialized
(`dumb_init` false) `KMSDRM_Dumb_UpdateWindowFramebuffer` returns -1, leaves
memory as it was, issues no `memcpy`, no `drmModeSetCrtc` and no
`drmModePageFlip`, and leaves `back_buffer`, `front_buffer`, `set_crtc` and the
buffer records unchanged; with acceleration active
`KMSDRM_Dumb_CreateWindowFramebuffer` returns -1, stores nothing through its
out parameters, keeps `windata->framebuffer` and only records the error. -/
theorem C10_rejected_present (o : UpdateOracle) (created : Option SDL_Surface) (s : State)
    (h : s.viddata.opengl_mode = true ∨ s.viddata.dumb_init = false) :
    ((KMSDRM_Dumb_UpdateWindowFramebuffer o s).1 = -1 ∧
     (KMSDRM_Dumb_UpdateWindowFramebuffer o s).1 ≠ 0 ∧
     (KMSDRM_Dumb_UpdateWindowFramebuffer o s).2.mem = s.mem ∧
     writeCalls (KMSDRM_Dumb_UpdateWindowFramebuffer o s).2.trace = writeCalls s.trace ∧
     presentCalls (KMSDRM_Dumb_UpdateWindowFramebuffer o s).2.trace = presentCalls s.trace ∧
     (KMSDRM_Dumb_UpdateWindowFramebuffer o s).2.windata.back_buffer = s.windata.back_buffer ∧
     (KMSDRM_Dumb_UpdateWindowFramebuffer o s).2.windata.front_buffer = s.windata.front_buffer ∧
     (KMSDRM_Dumb_UpdateWindowFramebuffer o s).2.windata.set_crtc = s.windata.set_crtc ∧
     (KMSDRM_Dumb_UpdateWindowFramebuffer o s).2.windata.dumb_buffers = s.windata.dumb_buffers) ∧
    (s.viddata.opengl_mode = true →
      (KMSDRM_Dumb_CreateWindowFramebuffer created s).1 = -1 ∧
      (KMSDRM_Dumb_CreateWindowFramebuffer created s).2.2 = none ∧
      (KMSDRM_Dumb_CreateWindowFramebuffer created s).2.1.windata = s.windata ∧
      (KMSDRM_Dumb_CreateWindowFramebuffer created s).2.1.mem = s.mem ∧
      (KMSDRM_Dumb_CreateWindowFramebuffer created s).2.1.trace = s.trace ++ [KCall.setError]) := by
  have hr := Update_rejected o s h
  refine ⟨⟨hr.1, by rw [hr.1]; decide, hr.2.2.2.2.2.1, ?_, ?_, hr.2.1, hr.2.2.1, hr.2.2.2.1,
    hr.2.2.2.2.1⟩, ?_⟩
  · have ht := CreateSurfaces_trace o.surfaces s
    unfold KMSDRM_Dumb_UpdateWindowFramebuffer
    by_cases hgl : s.viddata.opengl_mode = true
    · simp [hgl, writeCalls, KCall.isWrite]
    · have hinit : s.viddata.dumb_init = false := by
        rcases h with h | h
        · exact absurd h hgl
        · exact h
      have hc := CreateSurfaces_frame o.surfaces s
      by_cases hd : s.windata.egl_surface_dirty = true
      · simp [hgl, hd, hc, hinit, ht]
      · simp [hgl, hd, hinit]
  · have ht := CreateSurfaces_trace o.surfaces s
    unfold KMSDRM_Dumb_UpdateWindowFramebuffer
    by_cases hgl : s.viddata.opengl_mode = true
    · simp [hgl, presentCalls, KCall.isPresent]
    · have hinit : s.viddata.dumb_init = false := by
        rcases h with h | h
        · exact absurd h hgl
        · exact h
      have hc := CreateSurfaces_frame o.surfaces s
      by_cases hd : s.windata.egl_surface_dirty = true
      · simp [hgl, hd, hc, hinit, ht]
      · simp [hgl, hd, hinit]
  · intro hgl
    simp [KMSDRM_Dumb_CreateWindowFramebuffer, hgl, SDL_SetError]

/-- A framebuffer id in the range the kernel grants passes the test `buf_id >
0` under either signedness. -/
theorem bufIdPositive_valid (sgn : Bool) (v : Nat) (h0 : 0 < v) (h1 : v < 2 ^ 31) :
    bufIdPositive sgn v = true := by
  cases sgn
  · simp [bufIdPositive, h0]
  · simp only [bufIdPositive, if_true, decide_eq_true_eq]
    exact ⟨h0, h1⟩

/-- Release calls alone leave nothing held when nothing was held. -/
theorem liveAfter_erase_nil (tr : List KCall)
    (h : ∀ e ∈ tr, (∃ fd id, e = KCall.rmFB fd id) ∨ (∃ fd x, e = KCall.destroyDumb fd x) ∨
      (∃ a n, e = KCall.unmap a n)) :
    liveAfter [] tr = [] := by
  induction tr with
  | nil => rfl
  | cons e tr ih =>
    have he := h e (List.mem_cons_self _ _)
    have ih2 := ih (fun e2 h2 => h e2 (List.mem_cons_of_mem _ h2))
    unfold liveAfter at *
    rcases he with ⟨fd, id, rfl⟩ | ⟨fd, x, rfl⟩ | ⟨a, n, rfl⟩ <;>
      simpa [KCall.effect] using ih2

/-- The calls of `releaseSlot` are release calls. -/
theorem releaseSlot_only_releases (sgn : Bool) (fd : Int) (b : KMSDRM_DumbBuffer) :
    ∀ e ∈ releaseSlot sgn fd b, (∃ fd id, e = KCall.rmFB fd id) ∨
      (∃ fd x, e = KCall.destroyDumb fd x) ∨ (∃ a n, e = KCall.unmap a n) := by
  intro e he
  unfold releaseSlot at he
  simp only [List.mem_append] at he
  rcases he with (he | he) | he
  · split_ifs at he <;> simp_all
  · split_ifs at he <;> simp_all
  · split_ifs at he <;> simp_all

/-- The objects held after a concatenation of calls. -/
theorem liveAfter_append (l : List Resource) (a b : List KCall) :
    liveAfter l (a ++ b) = liveAfter (liveAfter l a) b := by
  simp [liveAfter, List.foldl_append]

/-- The calls of the rollback loop are release calls. -/
theorem rollbackLoop_only_releases (sgn : Bool) (fd : Int) (bs : List KMSDRM_DumbBuffer) :
    ∀ e ∈ rollbackLoop sgn fd bs, (∃ fd id, e = KCall.rmFB fd id) ∨
      (∃ fd x, e = KCall.destroyDumb fd x) ∨ (∃ a n, e = KCall.unmap a n) := by
  induction bs with
  | nil => simp [rollbackLoop]
  | cons b bs ih =>
    intro e he
    simp only [rollbackLoop, List.mem_append] at he
    rcases he with he | he
    · exact releaseSlot_only_releases sgn fd b e he
    · exact ih e he

/-- A slot whose four steps succeed: the record built, the objects created,
and their release by `releaseSlot`. -/
theorem createSlot_succeeds (sgn : Bool) (fd : Int) (disp : SDL_DisplayData) (o : SlotOutcome)
    (b : KMSDRM_DumbBuffer) (hs : o.succeeds) (hv : o.validIds) (l l2 : List Resource) :
    (createSlot fd disp o b).1 = true ∧
    liveAfter l (createSlot fd disp o b).2.2 =
      l ++ [Resource.handle o.handle, Resource.fb o.fb_id, Resource.mapping o.mmap_ret o.size] ∧
    liveAfter
      ([Resource.handle o.handle, Resource.fb o.fb_id, Resource.mapping o.mmap_ret o.size] ++ l2)
      (releaseSlot sgn fd (createSlot fd disp o b).2.1) = l2 := by
  obtain ⟨h1, h2, h3, h4⟩ := hs
  obtain ⟨v1, v2, v3⟩ := hv
  have v2b := v2 h1 h2
  have v3b := v3 h1 h2 h3
  have hp := bufIdPositive_valid sgn o.fb_id v2b.1 v2b.2
  have h1b : ¬ o.create_ret < 0 := by omega
  have h3b : ¬ o.map_ret < 0 := by omega
  have v1b := v1 h1
  simp [createSlot, h1b, h2, h3b, h4, liveAfter, KCall.effect, releaseSlot, hp, v1b, v3b]

/-- A slot that fails at some step: the iteration jumps to the failure label
and `releaseSlot` on the record it leaves releases what the steps before the
failure created. -/
theorem createSlot_failsAt (sgn : Bool) (fd : Int) (disp : SDL_DisplayData) (o : SlotOutcome)
    (b : KMSDRM_DumbBuffer) (st : CreateStep) (hf : o.failsAt st) (hv : o.validIds) :
    (createSlot fd disp o b).1 = false ∧
    (∀ l, liveAfter l (createSlot fd disp o b).2.2 =
      l ++ liveAfter [] (createSlot fd disp o b).2.2) ∧
    liveAfter (liveAfter [] (createSlot fd disp o b).2.2)
      (releaseSlot sgn fd (createSlot fd disp o b).2.1) = [] := by
  obtain ⟨v1, v2, v3⟩ := hv
  cases st
  · simp only [SlotOutcome.failsAt] at hf
    refine ⟨by simp [createSlot, hf], by simp [createSlot, hf, liveAfter, KCall.effect], ?_⟩
    have : liveAfter [] (createSlot fd disp o b).2.2 = [] := by
      simp [createSlot, hf, liveAfter, KCall.effect]
    rw [this]
    exact liveAfter_erase_nil _ (releaseSlot_only_releases sgn fd _)
  · simp only [SlotOutcome.failsAt] at hf
    obtain ⟨h1, h2⟩ := hf
    have h1b : ¬ o.create_ret < 0 := by omega
    have v1b := v1 h1
    refine ⟨by simp [createSlot, h1b, h2], by simp [createSlot, h1b, h2, liveAfter, KCall.effect], ?_⟩
    have hu : 0 < u32 (-1) := by decide
    by_cases g1 : bufIdPositive sgn b.buf_id = true <;> by_cases g3 : b.map = NULL <;>
      simp [createSlot, h1b, h2, liveAfter, KCall.effect, releaseSlot, hu, g1, g3]
  · simp only [SlotOutcome.failsAt] at hf
    obtain ⟨h1, h2, h3⟩ := hf
    have h1b : ¬ o.create_ret < 0 := by omega
    have v1b := v1 h1
    have v2b := v2 h1 h2
    have hp := bufIdPositive_valid sgn o.fb_id v2b.1 v2b.2
    refine ⟨by simp [createSlot, h1b, h2, h3],
      by simp [createSlot, h1b, h2, h3, liveAfter, KCall.effect], ?_⟩
    by_cases g3 : b.map = NULL <;>
      simp [createSlot, h1b, h2, h3, liveAfter, KCall.effect, releaseSlot, hp, v1b, g3]
  · simp only [SlotOutcome.failsAt] at hf
    obtain ⟨h1, h2, h3, h4⟩ := hf
    have h1b : ¬ o.create_ret < 0 := by omega
    have h3b : ¬ o.map_ret < 0 := by omega
    have v1b := v1 h1
    have v2b := v2 h1 h2
    have hp := bufIdPositive_valid sgn o.fb_id v2b.1 v2b.2
    have hm : MAP_FAILED ≠ NULL := by decide
    refine ⟨by simp [createSlot, h1b, h2, h3b, h4],
      by simp [createSlot, h1b, h2, h3b, h4, liveAfter, KCall.effect], ?_⟩
    simp [createSlot, h1b, h2, h3b, h4, liveAfter, KCall.effect, releaseSlot, hp, v1b, hm]

/-- The creation loop started at slot `k` on any array, failing at its
`i`-th slot: the loop reports failure, and the rollback loop run on the
records it leaves releases every object the loop created. -/
theorem createLoop_fail_rollback (sgn : Bool) (fd : Int) (disp : SDL_DisplayData)
    (slot : Nat → SlotOutcome) (bs : List KMSDRM_DumbBuffer) (k i : Nat) (st : CreateStep)
    (hi : i < bs.length)
    (hprev : ∀ j, j < i → (slot (k + j)).succeeds)
    (hfail : (slot (k + i)).failsAt st)
    (hids : ∀ j, j ≤ i → (slot (k + j)).validIds) :
    (createLoop fd disp slot k bs).1 = false ∧
    (∀ l, liveAfter l (createLoop fd disp slot k bs).2.2 =
      l ++ liveAfter [] (createLoop fd disp slot k bs).2.2) ∧
    liveAfter (liveAfter [] (createLoop fd disp slot k bs).2.2)
      (rollbackLoop sgn fd (createLoop fd disp slot k bs).2.1) = [] := by
  induction bs generalizing k i with
  | nil => simp at hi
  | cons b bs ih =>
    cases i with
    | zero =>
      have hf := createSlot_failsAt sgn fd disp (slot k) b st (by simpa using hfail)
        (by simpa using hids 0 (le_refl _))
      rcases hcs : createSlot fd disp (slot k) b with ⟨ok, b2, ev⟩
      rw [hcs] at hf
      obtain ⟨hf1, hf2, hf3⟩ := hf
      simp only at hf1 hf2 hf3
      subst hf1
      simp only [createLoop, hcs]
      refine ⟨trivial, hf2, ?_⟩
      simp only [rollbackLoop]
      rw [liveAfter_append, hf3]
      exact liveAfter_erase_nil _ (rollbackLoop_only_releases sgn fd bs)
    | succ i2 =>
      have hs0 : (slot k).succeeds := by simpa using hprev 0 (Nat.succ_pos _)
      have hv0 : (slot k).validIds := by simpa using hids 0 (Nat.zero_le _)
      have hrec := ih (k + 1) i2 (by simpa using hi)
        (fun j hj => by
          have := hprev (j + 1) (by omega)
          rwa [show k + (j + 1) = k + 1 + j by omega] at this)
        (by rwa [show k + (i2 + 1) = k + 1 + i2 by omega] at hfail)
        (fun j hj => by
          have := hids (j + 1) (by omega)
          rwa [show k + (j + 1) = k + 1 + j by omega] at this)
      obtain ⟨r1, r2, r3⟩ := hrec
      have hsA := fun l l2 => createSlot_succeeds sgn fd disp (slot k) b hs0 hv0 l l2
      rcases hcs : createSlot fd disp (slot k) b with ⟨ok, b2, ev⟩
      rw [hcs] at hsA
      simp only at hsA
      have hok : ok = true := (hsA [] []).1
      subst hok
      simp only [createLoop, hcs]
      refine ⟨r1, ?_, ?_⟩
      · intro l
        rw [liveAfter_append, liveAfter_append, (hsA l []).2.1, (hsA [] []).2.1, r2]
        rw [r2 ([] ++ _)]
        simp
      · simp only [rollbackLoop]
        rw [liveAfter_append, liveAfter_append, (hsA [] []).2.1, r2]
        rw [List.nil_append, (hsA [] _).2.2]
        exact r3

/-- A call without effect on the objects held can be skipped. -/
theorem liveAfter_cons_neutral (l : List Resource) (e : KCall) (tr : List KCall)
    (h : KCall.effect l e = l) : liveAfter l (e :: tr) = liveAfter l tr := by
  simp [liveAfter, h]

/-- When `KMSDRM_Dumb_CreateDumbBuffers`, on a device with dumb-buffer
support, fails in slot `i` at any of the four creation steps (the slots before
`i` having been built), it returns -1, `dumb_init` is what it was on entry,
and of the framebuffer objects, buffer handles and mappings created by the
calls it issued none is still held when it returns: each has been released
after it was created. -/
theorem Create_failure_rolls_back (sgn : Bool) (o : CreateOracle) (s : State)
    (i : Nat) (st : CreateStep)
    (hcap : 0 ≤ o.getcap_ret ∧ o.has_dumb ≠ 0)
    (hi : i < s.windata.dumb_buffers.length)
    (hprev : ∀ j, j < i → (o.slot j).succeeds)
    (hfail : (o.slot i).failsAt st)
    (hids : ∀ j, j ≤ i → (o.slot j).validIds) :
    (KMSDRM_Dumb_CreateDumbBuffers sgn o s).1 = -1 ∧
    (KMSDRM_Dumb_CreateDumbBuffers sgn o s).2.viddata.dumb_init = s.viddata.dumb_init ∧
    (KMSDRM_Dumb_CreateDumbBuffers sgn o s).2.trace =
      s.trace ++ emitted s (KMSDRM_Dumb_CreateDumbBuffers sgn o s).2 ∧
    liveAfter [] (emitted s (KMSDRM_Dumb_CreateDumbBuffers sgn o s).2) = [] := by
  have hcapb : (!(decide (0 ≤ o.getcap_ret) && decide (o.has_dumb ≠ 0))) = false := by
    simp [hcap.1, hcap.2]
  have key := fun fd => createLoop_fail_rollback sgn fd s.dispdata o.slot s.windata.dumb_buffers
    0 i st hi (by simpa using hprev) (by simpa using hfail) (by simpa using hids)
  unfold KMSDRM_Dumb_CreateDumbBuffers
  by_cases hfd : s.viddata.drm_fd < 0
  · have k := key o.open_fd
    rcases hcl : createLoop o.open_fd s.dispdata o.slot 0 s.windata.dumb_buffers with ⟨ok, bs, ev⟩
    rw [hcl] at k
    obtain ⟨k1, _, k3⟩ := k
    simp only at k1 k3
    subst k1
    simp only [hfd, if_true, hcapb, hcl, Bool.false_eq_true, if_false, true_and]
    simp only [emitted, List.append_assoc, List.drop_left, true_and]
    rw [List.singleton_append, List.singleton_append,
      liveAfter_cons_neutral _ _ _ rfl, liveAfter_cons_neutral _ _ _ rfl, liveAfter_append]
    exact k3
  · have k := key s.viddata.drm_fd
    rcases hcl : createLoop s.viddata.drm_fd s.dispdata o.slot 0 s.windata.dumb_buffers
      with ⟨ok, bs, ev⟩
    rw [hcl] at k
    obtain ⟨k1, _, k3⟩ := k
    simp only at k1 k3
    subst k1
    simp only [hfd, if_false, hcapb, hcl, Bool.false_eq_true, true_and]
    simp only [emitted, List.append_assoc, List.drop_left, true_and]
    rw [List.singleton_append, liveAfter_cons_neutral _ _ _ rfl, liveAfter_append]
    exact k3

/-- C9 at two concrete inputs: the first present after a creation is a
mode-set of framebuffer 10; with `set_crtc` clear the present is a flip of
framebuffer 10, and when the kernel rejects it with -16 that is the result
and `waiting_for_flip` stays false. -/
theorem C9_witness :
    (presentCalls (KMSDRM_Dumb_UpdateWindowFramebuffer goodFrame readyState).2.trace =
        presentCalls readyState.trace ++ [KCall.setCrtc 3 40 10 0] ∧
     (KMSDRM_Dumb_UpdateWindowFramebuffer goodFrame readyState).2.windata.waiting_for_flip =
        false ∧
     (KMSDRM_Dumb_UpdateWindowFramebuffer goodFrame readyState).2.windata.set_crtc = false ∧
     (KMSDRM_Dumb_UpdateWindowFramebuffer goodFrame readyState).1 = 0) ∧
    (presentCalls (KMSDRM_Dumb_UpdateWindowFramebuffer badFrame flippedState).2.trace =
        presentCalls flippedState.trace ++ [KCall.pageFlip 3 40 10 1 false (-16)] ∧
     ((KMSDRM_Dumb_UpdateWindowFramebuffer badFrame flippedState).2.windata.waiting_for_flip =
        true ↔ (-16 : Int) = 0) ∧
     (KMSDRM_Dumb_UpdateWindowFramebuffer badFrame flippedState).2.windata.set_crtc = false ∧
     (KMSDRM_Dumb_UpdateWindowFramebuffer badFrame flippedState).1 = -16) :=
  ⟨(C9_modeset_or_flip goodFrame readyState (by decide) (by decide)).1 (Or.inl (by decide)),
   (C9_modeset_or_flip badFrame flippedState (by decide) (by decide)).2
     ⟨by decide, by decide⟩⟩

/-- C10 at a concrete input: on a window of the accelerated path the present
returns -1 with `back_buffer` still 0, and `KMSDRM_Dumb_CreateWindowFramebuffer`
keeps the surface the window had. -/
theorem C10_witness :
    (KMSDRM_Dumb_UpdateWindowFramebuffer goodFrame acceleratedState).1 = -1 ∧
    (KMSDRM_Dumb_UpdateWindowFramebuffer goodFrame acceleratedState).2.windata.back_buffer = 0 ∧
    (KMSDRM_Dumb_CreateWindowFramebuffer none acceleratedState).2.1.windata.framebuffer =
      some { pixels := 65536, pitch := 7680, BytesPerPixel := 4 } :=
  ⟨(C10_rejected_present goodFrame none acceleratedState (Or.inl (by decide))).1.1,
   (C10_rejected_present goodFrame none acceleratedState (Or.inl (by decide))).1.2.2.2.2.2.1,
   by rw [((C10_rejected_present goodFrame none acceleratedState (Or.inl (by decide))).2
      (by decide)).2.2.1]; rfl⟩

/-- C4 (the code at the failing input): on a fresh window, with
`drmModeAddFB` failing for slot 1, `KMSDRM_Dumb_CreateDumbBuffers` returns -1
having released everything it created, yet slot 0 still names framebuffer 10,
handle 1 and the mapping at 16777216, and slot 1 has `handle = -1` next to a
zero id and a null mapping: neither record is torn down, neither is
constructed, whichever the signedness of `buf_id`.  A second attempt that
fails at once releases handle 1, the old mapping and handle 2 a second time
(and, with an unsigned `buf_id`, asks to remove framebuffer 4294967295). -/
theorem C4_failed_creation_leaves_stale_records :
    (KMSDRM_Dumb_CreateDumbBuffers false addfbFailsAtSlot1 freshState).1 = -1 ∧
    (KMSDRM_Dumb_CreateDumbBuffers true addfbFailsAtSlot1 freshState).2.windata =
      failedState.windata ∧
    failedState.windata.dumb_buffers.map (fun b => (b.buf_id, b.req_create.handle, b.map)) =
      [(10, 1, 16777216), (0, 4294967295, 0)] ∧
    liveAfter [] (emitted freshState failedState) = [] ∧
    (∀ b ∈ failedState.windata.dumb_buffers,
      ¬ b.tornDown ∧ ¬ b.constructed (liveAfter [] (emitted freshState failedState))) ∧
    emitted failedState (KMSDRM_Dumb_CreateDumbBuffers true createFailsAtSlot0 failedState).2 =
      [KCall.drmGetCap 3, KCall.createDumb 3 1920 1080 32 (-12) 0, KCall.setError,
       KCall.destroyDumb 3 1, KCall.unmap 16777216 8294400, KCall.destroyDumb 3 2] ∧
    emitted failedState (KMSDRM_Dumb_CreateDumbBuffers false createFailsAtSlot0 failedState).2 =
      [KCall.drmGetCap 3, KCall.createDumb 3 1920 1080 32 (-12) 0, KCall.setError,
       KCall.rmFB 3 4294967295,
       KCall.destroyDumb 3 1, KCall.unmap 16777216 8294400, KCall.destroyDumb 3 2] := by
  decide

/-- What the teardown loop leaves: every record reset. -/
theorem destroyLoop_reset (sgn : Bool) (fd : Int) (bs : List KMSDRM_DumbBuffer) :
    (destroyLoop sgn fd bs).1 = bs.map resetSlot := by
  induction bs with
  | nil => simp [destroyLoop]
  | cons b bs ih => simp [destroyLoop, ih]

/-- After `KMSDRM_Dumb_DestroySurfaces` on an initialized pool every record
is torn down. -/
theorem DestroySurfaces_tornDown (sgn : Bool) (s : State) (h : s.viddata.dumb_init = true) :
    ∀ b ∈ (KMSDRM_Dumb_DestroySurfaces sgn s).windata.dumb_buffers, b.tornDown := by
  intro b hb
  simp only [KMSDRM_Dumb_DestroySurfaces, h, Bool.not_true, Bool.false_eq_true, if_false,
    destroyLoop_reset, List.mem_map] at hb
  obtain ⟨c, _, rfl⟩ := hb
  simp [KMSDRM_DumbBuffer.tornDown, resetSlot]

/-- C5: `KMSDRM_Dumb_DestroySurfaces` is idempotent: run twice it gives the
state one run gives (trace included, so the second run issues no call), one
run leaves `dumb_init` false, and on any state whose `dumb_init` is false it
returns the state unchanged: no framebuffer-remove, buffer-destroy, unmap or
close call, no field written. -/
theorem C5_destroy_idempotent (sgn : Bool) (s : State) :
    KMSDRM_Dumb_DestroySurfaces sgn (KMSDRM_Dumb_DestroySurfaces sgn s) =
      KMSDRM_Dumb_DestroySurfaces sgn s ∧
    (KMSDRM_Dumb_DestroySurfaces sgn s).viddata.dumb_init = false ∧
    KMSDRM_Dumb_DestroySurfaces sgn { s with viddata := { s.viddata with dumb_init := false } } =
      { s with viddata := { s.viddata with dumb_init := false } } := by
  refine ⟨?_, ?_, ?_⟩
  · by_cases h : s.viddata.dumb_init = true
    · simp [KMSDRM_Dumb_DestroySurfaces, h]
    · simp [KMSDRM_Dumb_DestroySurfaces, h]
  · by_cases h : s.viddata.dumb_init = true
    · simp [KMSDRM_Dumb_DestroySurfaces, h]
    · have hf : s.viddata.dumb_init = false := by simpa using h
      simp [KMSDRM_Dumb_DestroySurfaces, hf]
  · simp [KMSDRM_Dumb_DestroySurfaces]

/-! ## Traces only grow -/

/-- A trace that extends another is that trace followed by the calls emitted.
-/
theorem trace_eq_append_emitted (s s2 : State) (h : s.trace <+: s2.trace) :
    s2.trace = s.trace ++ emitted s s2 := by
  obtain ⟨evs, hevs⟩ := h
  simp [emitted, ← hevs]

/-- The flips sent while pending of a concatenation. -/
theorem pendingFlips_append (a b : List KCall) :
    pendingFlips (a ++ b) = pendingFlips a ++ pendingFlips b := by
  simp [pendingFlips]

/-- The call `KMSDRM_GBMDestroySurfaces` extends the trace, by no flip. -/
theorem GBMDestroySurfaces_grows (s : State) :
    s.trace <+: (KMSDRM_GBMDestroySurfaces s).trace ∧
    pendingFlips (KMSDRM_GBMDestroySurfaces s).trace = pendingFlips s.trace := by
  unfold KMSDRM_GBMDestroySurfaces pendingFlips
  simp only []
  split_ifs <;> simp [List.filter_append, KCall.flipWhilePending]

/-- The call `KMSDRM_CreateSurfaces` extends the trace, by no flip. -/
theorem CreateSurfaces_grows (o : SurfaceOracle) (s : State) :
    s.trace <+: (KMSDRM_CreateSurfaces o s).trace ∧
    pendingFlips (KMSDRM_CreateSurfaces o s).trace = pendingFlips s.trace := by
  have h := GBMDestroySurfaces_grows s
  constructor
  · simp only [KMSDRM_CreateSurfaces]
    exact h.1.trans (List.prefix_append _ _)
  · simp only [KMSDRM_CreateSurfaces, pendingFlips_append, h.2]
    simp [pendingFlips, KCall.flipWhilePending]

/-- The copy loop extends the trace, by no flip. -/
theorem copyRows_grows (b : KMSDRM_DumbBuffer) (sf : SDL_Surface) (w : Nat) (l : List Nat)
    (s : State) :
    s.trace <+: (l.foldl (copyRow b sf w) s).trace ∧
    pendingFlips (l.foldl (copyRow b sf w) s).trace = pendingFlips s.trace := by
  induction l generalizing s with
  | nil => simp
  | cons i l ih =>
    have h := ih (copyRow b sf w s i)
    simp only [List.foldl_cons]
    constructor
    · refine List.IsPrefix.trans ?_ h.1
      simp [copyRow]
    · rw [h.2]
      simp [copyRow, pendingFlips, KCall.flipWhilePending]

/-- A mode change issues no call. -/
theorem modeChange_trace (d : Bool) (s : State) : (modeChange d s).trace = s.trace := by
  unfold modeChange
  split_ifs <;> rfl

/-- The calls of the copy loop: one `memcpy` per row. -/
theorem copyRows_trace_eq (b : KMSDRM_DumbBuffer) (sf : SDL_Surface) (w : Nat) (l : List Nat)
    (s : State) :
    (l.foldl (copyRow b sf w) s).trace =
      s.trace ++ l.map (fun i =>
        KCall.memcpy (ptrAdd b.map (((i * b.req_create.pitch) % 2 ^ 32 : Nat) : Int))
          (ptrAdd sf.pixels (i32 ((i : Int) * (sf.pitch : Int))))
          (sizeT (i32 ((w : Int) * (sf.BytesPerPixel : Int))))) := by
  induction l generalizing s with
  | nil => simp
  | cons i l ih =>
    simp only [List.foldl_cons, List.map_cons]
    rw [ih]
    simp [copyRow]

/-- No `memcpy` is a flip. -/
theorem pendingFlips_memcpy (l : List Nat) (f g h : Nat → Nat) :
    pendingFlips (l.map (fun i => KCall.memcpy (f i) (g i) (h i))) = [] := by
  induction l with
  | nil => rfl
  | cons i l ih =>
    simp only [List.map_cons, pendingFlips, List.filter_cons, KCall.flipWhilePending]
    simpa [pendingFlips] using ih

/-- If a trace extends another without a new flip sent while pending, none of
the calls emitted is one. -/
theorem pendingFlips_emitted (s s2 : State) (h : s.trace <+: s2.trace)
    (hp : pendingFlips s2.trace = pendingFlips s.trace) :
    pendingFlips (emitted s s2) = [] := by
  have he := trace_eq_append_emitted s s2 h
  rw [he, pendingFlips_append] at hp
  simpa using hp

/-- A software present extends the trace, by no flip sent while one was
pending. -/
theorem Update_grows (o : UpdateOracle) (s : State) :
    s.trace <+: (KMSDRM_Dumb_UpdateWindowFramebuffer o s).2.trace ∧
    pendingFlips (KMSDRM_Dumb_UpdateWindowFramebuffer o s).2.trace = pendingFlips s.trace := by
  have hc := CreateSurfaces_frame o.surfaces s
  have hg := CreateSurfaces_grows o.surfaces s
  have hpe := pendingFlips_emitted s _ hg.1 hg.2
  have hte := trace_eq_append_emitted s _ hg.1
  generalize emitted s (KMSDRM_CreateSurfaces o.surfaces s) = evs at hpe hte
  unfold KMSDRM_Dumb_UpdateWindowFramebuffer
  by_cases hgl : s.viddata.opengl_mode = true
  · simp [hgl, pendingFlips, KCall.flipWhilePending]
  · simp only [hgl, Bool.false_eq_true, if_false]
    by_cases hd : s.windata.egl_surface_dirty = true
    · by_cases hinit : s.viddata.dumb_init = true
      · simp [hd, hc, hinit, copyRows_trace_eq, hte, pendingFlips_append, pendingFlips_memcpy,
          hpe]
        simp [pendingFlips, KCall.flipWhilePending]
      · simp [hd, hc.1, hinit, hte, pendingFlips_append, hpe]
    · by_cases hinit : s.viddata.dumb_init = true
      · by_cases hs : s.windata.set_crtc = true
        · simp [hd, hs, hc, hinit, copyRows_trace_eq, pendingFlips_append, pendingFlips_memcpy]
          simp [pendingFlips, KCall.flipWhilePending]
        · simp [hd, hs, hc, hinit, copyRows_trace_eq, pendingFlips_append, pendingFlips_memcpy,
            copyRows_frame, WaitPageflip_frame]
          simp [pendingFlips, KCall.flipWhilePending]
      · simp [hd, hinit]

/-- The step `releaseFront` in one update: `bo` becomes the old `next_bo`, and
the old `bo`, if any, is released. -/
theorem releaseFront_eq (s : State) :
    releaseFront s =
      { s with windata := { s.windata with bo := s.windata.next_bo },
               trace := s.trace ++
                 (if s.windata.bo ≠ NULL then [KCall.releaseBuffer s.windata.gs s.windata.bo]
                  else []) } := by
  unfold releaseFront
  by_cases h : s.windata.bo = NULL <;> simp [h]

/-- The presentation step, entered with no flip pending, extends the trace by
no flip sent while one was pending. -/
theorem presentNext_grows (o : SwapOracle) (fb_id : Nat) (s : State)
    (hw : s.windata.waiting_for_flip = false) :
    s.trace <+: (presentNext o fb_id s).2.trace ∧
    pendingFlips (presentNext o fb_id s).2.trace = pendingFlips s.trace := by
  unfold presentNext
  simp only [WaitPageflip_frame]
  split_ifs <;> simp [pendingFlips_append, pendingFlips, KCall.flipWhilePending, hw]

/-- The frame after the recreation of the surfaces extends the trace, by no
flip sent while one was pending. -/
theorem swapWindowBody_grows (o : SwapOracle) (s : State) :
    s.trace <+: (swapWindowBody o s).2.trace ∧
    pendingFlips (swapWindowBody o s).2.trace = pendingFlips s.trace := by
  unfold swapWindowBody
  simp only [WaitPageflip_frame, releaseFront_eq]
  have hrel : List.filter KCall.flipWhilePending (if s.windata.bo ≠ NULL then
      [KCall.releaseBuffer s.windata.gs s.windata.bo] else []) = [] := by
    split_ifs <;> rfl
  generalize (if s.windata.bo ≠ NULL then
      [KCall.releaseBuffer s.windata.gs s.windata.bo] else []) = rel at hrel ⊢
  split_ifs with h1 h2 h3
  · simp
  · simp [pendingFlips, hrel, KCall.flipWhilePending]
  · simp [pendingFlips, hrel, KCall.flipWhilePending]
  · split
    · simp [pendingFlips, hrel, KCall.flipWhilePending]
    · rename_i fb_id hfb
      have hp := presentNext_grows o fb_id
        { s with
            windata := { s.windata with waiting_for_flip := false, bo := s.windata.next_bo,
                                        next_bo := o.locked_bo },
            trace := s.trace ++ rel ++
              [KCall.eglSwapBuffers s.windata.egl_surface o.swap_ok] ++
              [KCall.lockFrontBuffer s.windata.gs o.locked_bo] ++
              [KCall.fbFromBO o.locked_bo o.fb] } rfl
      constructor
      · refine List.IsPrefix.trans ?_ hp.1
        simp
      · rw [hp.2]
        simp [pendingFlips, hrel, KCall.flipWhilePending]

/-- An accelerated present extends the trace, by no flip sent while one was
pending. -/
theorem Swap_grows (o : SwapOracle) (s : State) :
    s.trace <+: (KMSDRM_GLES_SwapWindow o s).2.trace ∧
    pendingFlips (KMSDRM_GLES_SwapWindow o s).2.trace = pendingFlips s.trace := by
  unfold KMSDRM_GLES_SwapWindow
  split_ifs
  · have hg := CreateSurfaces_grows o.surfaces s
    have hb := swapWindowBody_grows o (KMSDRM_CreateSurfaces o.surfaces s)
    exact ⟨hg.1.trans hb.1, hb.2.trans hg.2⟩
  · exact swapWindowBody_grows o s

/-- One present call, by either path, extends the trace, by no flip sent while
one was pending. -/
theorem presentFrame_grows (f : Frame) (s : State) :
    s.trace <+: (presentFrame f s).trace ∧
    pendingFlips (presentFrame f s).trace = pendingFlips s.trace := by
  cases f with
  | dumb d o =>
    have h := Update_grows o (modeChange d s)
    rw [modeChange_trace] at h
    exact h
  | gles d o =>
    have h := Swap_grows o (modeChange d s)
    rw [modeChange_trace] at h
    exact h

/-- A sequence of present calls extends the trace, by no flip sent while one
was pending. -/
theorem presents_grows (frames : List Frame) (s : State) :
    s.trace <+: (presents frames s).trace ∧
    pendingFlips (presents frames s).trace = pendingFlips s.trace := by
  induction frames generalizing s with
  | nil => simp [presents]
  | cons f rest ih =>
    have h1 := presentFrame_grows f s
    have h2 := ih (presentFrame f s)
    simp only [presents]
    exact ⟨h1.1.trans h2.1, h2.2.trans h1.2⟩

/-- C6: in every sequence of present calls on one window, by the software
path (`KMSDRM_Dumb_UpdateWindowFramebuffer`) or the accelerated one
(`KMSDRM_GLES_SwapWindow`), with any answers from the kernel, EGL and GBM and
the display mode changing at will between calls, the calls issued extend the
trace and none of them is a `drmModePageFlip` sent while `waiting_for_flip`
was set. -/
theorem C6_no_flip_while_pending (frames : List Frame) (s : State) :
    (presents frames s).trace = s.trace ++ emitted s (presents frames s) ∧
    ∀ e ∈ emitted s (presents frames s), ∀ fd crtc fb flags ret,
      e ≠ KCall.pageFlip fd crtc fb flags true ret := by
  have h := presents_grows frames s
  refine ⟨trace_eq_append_emitted s _ h.1, ?_⟩
  have hp := pendingFlips_emitted s _ h.1 h.2
  intro e he fd crtc fb flags ret heq
  have hmem : e ∈ pendingFlips (emitted s (presents frames s)) := by
    simp only [pendingFlips, List.mem_filter]
    exact ⟨he, by rw [heq]; rfl⟩
  rw [hp] at hmem
  exact absurd hmem (List.not_mem_nil _)

/-- C8 (counterexample): with a flip to buffer 200 pending and buffer 100
displayed, a `KMSDRM_GLES_SwapWindow` whose wait fails returns 0 and issues no
call at all: buffer 100 is not released, `next_bo` is not promoted and
`eglSwapBuffers` is not called; the same call with a successful wait does all
three. -/
theorem C8_wait_failure_aborts_frame :
    (KMSDRM_GLES_SwapWindow (waitFails 300) flippingSurface).1 = 0 ∧
    emitted flippingSurface (KMSDRM_GLES_SwapWindow (waitFails 300) flippingSurface).2 = [] ∧
    (KMSDRM_GLES_SwapWindow (waitFails 300) flippingSurface).2.windata.bo = 100 ∧
    (KMSDRM_GLES_SwapWindow (waitFails 300) flippingSurface).2.windata.next_bo = 200 ∧
    emitted flippingSurface (KMSDRM_GLES_SwapWindow (goodSwap 300) flippingSurface).2 =
      [KCall.releaseBuffer 4096 100, KCall.eglSwapBuffers 8192 true,
       KCall.lockFrontBuffer 4096 300, KCall.fbFromBO 300 (some 301),
       KCall.pageFlip 3 40 301 1 false 0] ∧
    (KMSDRM_GLES_SwapWindow (goodSwap 300) flippingSurface).2.windata.bo = 200 := by
  decide

/-- C8 (amended): when the wait for the previous flip fails (a flip is
pending and its event arrives malformed), `KMSDRM_GLES_SwapWindow` returns 0
at once: the state is the one the optional recreation of the surfaces left,
with `waiting_for_flip` cleared; no buffer is released, `next_bo` is not
promoted and `eglSwapBuffers` is not called. -/
theorem C8_wait_failure_returns_early (o : SwapOracle) (s : State)
    (hpending : s.windata.waiting_for_flip = true) (hfail : o.wait_ok = false) :
    (KMSDRM_GLES_SwapWindow o s).1 = 0 ∧
    (s.windata.egl_surface_dirty = false →
      (KMSDRM_GLES_SwapWindow o s).2 =
        { s with windata := { s.windata with waiting_for_flip := false } }) ∧
    (s.windata.egl_surface_dirty = true →
      (KMSDRM_GLES_SwapWindow o s).2 =
        { KMSDRM_CreateSurfaces o.surfaces s with
            windata := { (KMSDRM_CreateSurfaces o.surfaces s).windata with
                           waiting_for_flip := false } }) := by
  have hc := CreateSurfaces_frame o.surfaces s
  refine ⟨?_, ?_, ?_⟩
  · unfold KMSDRM_GLES_SwapWindow swapWindowBody KMSDRM_WaitPageflip
    by_cases hd : s.windata.egl_surface_dirty = true
    · simp [hd, hc, hpending, hfail]
    · simp [hd, hpending, hfail]
  · intro hd
    unfold KMSDRM_GLES_SwapWindow swapWindowBody KMSDRM_WaitPageflip
    simp [hd, hpending, hfail]
  · intro hd
    unfold KMSDRM_GLES_SwapWindow swapWindowBody KMSDRM_WaitPageflip
    simp [hd, hc, hpending, hfail]

/-- C8 (amended) at a concrete input: the wait fails with buffer 100
displayed; the call returns 0, issues no call and leaves `bo` as it was. -/
theorem C8_witness :
    (KMSDRM_GLES_SwapWindow (waitFails 300) flippingSurface).1 = 0 ∧
    (KMSDRM_GLES_SwapWindow (waitFails 300) flippingSurface).2.trace = flippingSurface.trace ∧
    (KMSDRM_GLES_SwapWindow (waitFails 300) flippingSurface).2.windata.bo =
      flippingSurface.windata.bo :=
  ⟨(C8_wait_failure_returns_early (waitFails 300) flippingSurface (by decide) (by decide)).1,
   by rw [(C8_wait_failure_returns_early (waitFails 300) flippingSurface (by decide)
      (by decide)).2.1 (by decide)],
   by rw [(C8_wait_failure_returns_early (waitFails 300) flippingSurface (by decide)
      (by decide)).2.1 (by decide)]⟩

/-! ## The presentation request of an accelerated frame -/

/-- The presentation requests among the calls emitted, read off the two
traces. -/
theorem presentCalls_emitted (s s2 : State) (X : List KCall) (h : s.trace <+: s2.trace)
    (hp : presentCalls s2.trace = presentCalls s.trace ++ X) :
    presentCalls (emitted s s2) = X := by
  have he := trace_eq_append_emitted s s2 h
  rw [he, presentCalls_append] at hp
  exact List.append_cancel_left hp

/-- The presentation step issues a mode-set when `bo` is null and a flip
otherwise, and keeps `next_bo`. -/
theorem presentNext_present (o : SwapOracle) (fb_id : Nat) (s : State) :
    (presentNext o fb_id s).2.windata.next_bo = s.windata.next_bo ∧
    (s.windata.bo = NULL →
      presentCalls (presentNext o fb_id s).2.trace =
        presentCalls s.trace ++
          [KCall.setCrtc s.viddata.drm_fd s.dispdata.crtc_id fb_id o.setcrtc_ret]) ∧
    (s.windata.bo ≠ NULL → ∃ flags,
      presentCalls (presentNext o fb_id s).2.trace =
        presentCalls s.trace ++
          [KCall.pageFlip s.viddata.drm_fd s.dispdata.crtc_id fb_id flags
            s.windata.waiting_for_flip o.flip_ret]) := by
  refine ⟨?_, ?_, ?_⟩
  · unfold presentNext
    simp only [WaitPageflip_frame]
    split_ifs <;> rfl
  · intro hbo
    unfold presentNext
    simp only [hbo, if_true]
    split_ifs <;> simp [presentCalls_append, presentCalls_setCrtc]
  · intro hbo
    unfold presentNext
    simp only [hbo, if_false, WaitPageflip_frame]
    refine ⟨if s.egl_swapinterval = 0 ∧ s.viddata.async_pageflip_support = true then
        DRM_MODE_PAGE_FLIP_EVENT ||| DRM_MODE_PAGE_FLIP_ASYNC
      else DRM_MODE_PAGE_FLIP_EVENT, ?_⟩
    split_ifs <;> simp [presentCalls_append, presentCalls_pageFlip]

/-- A frame whose lock and framebuffer lookup succeed issues nothing and keeps
`next_bo`, or issues a mode-set (`next_bo` was null) or a flip (it was not)
and leaves `next_bo` set. -/
theorem swapWindowBody_present (o : SwapOracle) (s : State) (fb_id : Nat)
    (hl : o.locked_bo ≠ NULL) (hf : o.fb = some fb_id) :
    (presentCalls (swapWindowBody o s).2.trace = presentCalls s.trace ∧
      (swapWindowBody o s).2.windata.next_bo = s.windata.next_bo) ∨
    (s.windata.next_bo = NULL ∧ (swapWindowBody o s).2.windata.next_bo ≠ NULL ∧
      ∃ fd c r0, presentCalls (swapWindowBody o s).2.trace =
        presentCalls s.trace ++ [KCall.setCrtc fd c fb_id r0]) ∨
    (s.windata.next_bo ≠ NULL ∧ (swapWindowBody o s).2.windata.next_bo ≠ NULL ∧
      ∃ fd c g r0, presentCalls (swapWindowBody o s).2.trace =
        presentCalls s.trace ++ [KCall.pageFlip fd c fb_id g false r0]) := by
  unfold swapWindowBody
  simp only [WaitPageflip_frame, releaseFront_eq, hf]
  have hrel : List.filter KCall.isPresent (if s.windata.bo ≠ NULL then
      [KCall.releaseBuffer s.windata.gs s.windata.bo] else []) = [] := by
    split_ifs <;> rfl
  generalize (if s.windata.bo ≠ NULL then
      [KCall.releaseBuffer s.windata.gs s.windata.bo] else []) = rel at hrel ⊢
  split_ifs with h1 h2
  · left
    simp
  · left
    simp [presentCalls, hrel, KCall.isPresent]
  · have hp := presentNext_present o fb_id
      { s with
          windata := { s.windata with waiting_for_flip := false, bo := s.windata.next_bo,
                                      next_bo := o.locked_bo },
          trace := s.trace ++ rel ++
            [KCall.eglSwapBuffers s.windata.egl_surface o.swap_ok] ++
            [KCall.lockFrontBuffer s.windata.gs o.locked_bo] ++
            [KCall.fbFromBO o.locked_bo (some fb_id)] }
    obtain ⟨hp1, hp2, hp3⟩ := hp
    have hpre : presentCalls (s.trace ++ rel ++
        [KCall.eglSwapBuffers s.windata.egl_surface o.swap_ok] ++
        [KCall.lockFrontBuffer s.windata.gs o.locked_bo] ++
        [KCall.fbFromBO o.locked_bo (some fb_id)]) = presentCalls s.trace := by
      simp [presentCalls, hrel, KCall.isPresent]
    simp only [hpre] at hp2 hp3
    by_cases hnb : s.windata.next_bo = NULL
    · right; left
      refine ⟨hnb, ?_, _, _, _, hp2 hnb⟩
      rw [hp1]
      exact hl
    · right; right
      obtain ⟨flags, hfl⟩ := hp3 hnb
      refine ⟨hnb, ?_, _, _, flags, _, hfl⟩
      rw [hp1]
      exact hl

/-- No presentation request: kind `nothing`. -/
theorem presentKind_nothing (evs : List KCall) (h : presentCalls evs = []) :
    presentKind evs = PresentKind.nothing := by
  simp [presentKind, h]

/-- One mode-set and nothing else: kind `modeset`. -/
theorem presentKind_modeset (evs : List KCall) (fd : Int) (c f : Nat) (r : Int)
    (h : presentCalls evs = [KCall.setCrtc fd c f r]) :
    presentKind evs = PresentKind.modeset := by
  simp [presentKind, h]

/-- One flip and nothing else: kind `flip`. -/
theorem presentKind_flip (evs : List KCall) (fd : Int) (c f g : Nat) (p : Bool) (r : Int)
    (h : presentCalls evs = [KCall.pageFlip fd c f g p r]) :
    presentKind evs = PresentKind.flip := by
  simp [presentKind, h]

/-- The presentation request of one `KMSDRM_GLES_SwapWindow` in which the
lock and the framebuffer lookup succeed, by the value `next_bo` has once the
surfaces were recreated or not. -/
theorem Swap_kind (o : SwapOracle) (s : State) (fb_id : Nat)
    (hl : o.locked_bo ≠ NULL) (hf : o.fb = some fb_id) :
    (presentKind (emitted s (KMSDRM_GLES_SwapWindow o s).2) = PresentKind.nothing ∧
      (KMSDRM_GLES_SwapWindow o s).2.windata.next_bo =
        (if s.windata.egl_surface_dirty then NULL else s.windata.next_bo)) ∨
    (presentKind (emitted s (KMSDRM_GLES_SwapWindow o s).2) =
        (if (if s.windata.egl_surface_dirty then NULL else s.windata.next_bo) = NULL
          then PresentKind.modeset else PresentKind.flip) ∧
      (KMSDRM_GLES_SwapWindow o s).2.windata.next_bo ≠ NULL) := by
  have key : ∀ s1 : State, s.trace <+: s1.trace → presentCalls s1.trace = presentCalls s.trace →
      (presentKind (emitted s (swapWindowBody o s1).2) = PresentKind.nothing ∧
        (swapWindowBody o s1).2.windata.next_bo = s1.windata.next_bo) ∨
      (presentKind (emitted s (swapWindowBody o s1).2) =
          (if s1.windata.next_bo = NULL then PresentKind.modeset else PresentKind.flip) ∧
        (swapWindowBody o s1).2.windata.next_bo ≠ NULL) := by
    intro s1 hpre hpc
    have hg := (swapWindowBody_grows o s1).1
    have hpre2 := hpre.trans hg
    rcases swapWindowBody_present o s1 fb_id hl hf with ⟨h1, h2⟩ | ⟨h1, h2, fd, c, r0, h3⟩ |
        ⟨h1, h2, fd, c, g, r0, h3⟩
    · left
      refine ⟨presentKind_nothing _ (presentCalls_emitted s _ [] hpre2 ?_), h2⟩
      rw [h1, hpc, List.append_nil]
    · right
      refine ⟨?_, h2⟩
      rw [if_pos h1]
      exact presentKind_modeset _ fd c fb_id r0
        (presentCalls_emitted s _ _ hpre2 (by rw [h3, hpc]))
    · right
      refine ⟨?_, h2⟩
      rw [if_neg h1]
      exact presentKind_flip _ fd c fb_id g false r0
        (presentCalls_emitted s _ _ hpre2 (by rw [h3, hpc]))
  unfold KMSDRM_GLES_SwapWindow
  by_cases hd : s.windata.egl_surface_dirty = true
  · have hc := CreateSurfaces_frame o.surfaces s
    have hg := CreateSurfaces_grows o.surfaces s
    have ht := CreateSurfaces_trace o.surfaces s
    have k := key (KMSDRM_CreateSurfaces o.surfaces s) hg.1 ht.1
    simp only [hd, if_true]
    rw [hc.2.2.2.2.2.2.2.2.2.2.2.2.2.2.1] at k
    simpa using k
  · have k := key s (List.prefix_refl _) rfl
    simp only [hd, if_false]
    simpa [hd] using k

/-- C7 (the code at the failing input): on a freshly created surface
(`bo = next_bo = NULL`, nothing issued yet), a first call in which
`KMSDRM_FBFromBO` fails for the buffer just locked returns 0 before the
presentation step and leaves `bo = NULL`, `next_bo = 100`; the second call, in
which every step succeeds, is the first to reach the presentation step, finds
`bo` set once `next_bo` is promoted, and issues `drmModePageFlip`.  The two
calls issue no `drmModeSetCrtc` at all: the one presentation request of the
run is a page flip. -/
theorem C7_flip_before_modeset :
    (freshSurface.windata.bo = NULL ∧ freshSurface.windata.next_bo = NULL ∧
      freshSurface.trace = []) ∧
    ((KMSDRM_GLES_SwapWindow (fbLookupFails 100) freshSurface).1 = 0 ∧
      emitted freshSurface (KMSDRM_GLES_SwapWindow (fbLookupFails 100) freshSurface).2 =
        [KCall.eglSwapBuffers 8192 true, KCall.lockFrontBuffer 4096 100,
         KCall.fbFromBO 100 none] ∧
      (KMSDRM_GLES_SwapWindow (fbLookupFails 100) freshSurface).2.windata.bo = NULL ∧
      (KMSDRM_GLES_SwapWindow (fbLookupFails 100) freshSurface).2.windata.next_bo = 100) ∧
    ((KMSDRM_GLES_SwapWindow (goodSwap 200)
        (KMSDRM_GLES_SwapWindow (fbLookupFails 100) freshSurface).2).1 = 1 ∧
      emitted (KMSDRM_GLES_SwapWindow (fbLookupFails 100) freshSurface).2
          (KMSDRM_GLES_SwapWindow (goodSwap 200)
            (KMSDRM_GLES_SwapWindow (fbLookupFails 100) freshSurface).2).2 =
        [KCall.eglSwapBuffers 8192 true, KCall.lockFrontBuffer 4096 200,
         KCall.fbFromBO 200 (some 201), KCall.pageFlip 3 40 201 1 false 0]) ∧
    presentCalls (presents [Frame.gles false (fbLookupFails 100),
        Frame.gles false (goodSwap 200)] freshSurface).trace =
      [KCall.pageFlip 3 40 201 1 false 0] ∧
    swapRunKinds [(false, fbLookupFails 100), (false, goodSwap 200)] freshSurface =
      [PresentKind.nothing, PresentKind.flip] := by
  decide

/-! ## The initialization of the accelerated path -/

/-- C12 (counterexample): on a fresh window, when `gbm_create_device`
returns null, `KMSDRM_GBMInit` returns -1 and yet `gbm_init` is true on
return, with `gbm_dev` null. -/
theorem C12_gbm_init_set_on_failure :
    (KMSDRM_GBMInit gbmDeviceFails freshState).1 = -1 ∧
    (KMSDRM_GBMInit gbmDeviceFails freshState).2.viddata.gbm_init = true ∧
    (KMSDRM_GBMInit gbmDeviceFails freshState).2.viddata.gbm_dev = NULL ∧
    freshState.viddata.gbm_init = false := by
  decide

/-- C12 (amended): when GBM support is present, `KMSDRM_GBMInit` reopens the
descriptor and returns with `gbm_init` true and `dumb_init` false whether or
not the device was created; it returns -1 when `gbm_create_device` returned
null (`gbm_dev` is then null) and 0 when it returned a device. -/
theorem C12_gbm_init_flags (o : GBMInitOracle) (s : State) (hgbm : o.have_gbm = true) :
    (KMSDRM_GBMInit o s).2.viddata.gbm_init = true ∧
    (KMSDRM_GBMInit o s).2.viddata.dumb_init = false ∧
    (KMSDRM_GBMInit o s).2.viddata.gbm_dev = o.gbm_dev ∧
    (KMSDRM_GBMInit o s).2.viddata.drm_fd = o.open_fd ∧
    (o.gbm_dev = NULL → (KMSDRM_GBMInit o s).1 = -1 ∧ (KMSDRM_GBMInit o s).1 ≠ 0) ∧
    (o.gbm_dev ≠ NULL → (KMSDRM_GBMInit o s).1 = 0) := by
  unfold KMSDRM_GBMInit
  by_cases hdev : o.gbm_dev = NULL
  · simp [hgbm, hdev, SDL_SetError]
  · simp [hgbm, hdev]

/-- After `KMSDRM_GBMInit`, failed or not, `KMSDRM_GBMDeinit` closes the
descriptor that was reopened, destroys the device if there is one and clears
`gbm_init`: the flag set by the initialization is what the teardown undoes. -/
theorem GBMDeinit_after_GBMInit (o : GBMInitOracle) (s : State) (hgbm : o.have_gbm = true) :
    (KMSDRM_GBMDeinit (KMSDRM_GBMInit o s).2).viddata.gbm_init = false ∧
    (KMSDRM_GBMDeinit (KMSDRM_GBMInit o s).2).viddata.gbm_dev = NULL ∧
    (0 ≤ o.open_fd →
      (KMSDRM_GBMDeinit (KMSDRM_GBMInit o s).2).viddata.drm_fd = -1 ∧
      KCall.close o.open_fd ∈ emitted s (KMSDRM_GBMDeinit (KMSDRM_GBMInit o s).2)) := by
  unfold KMSDRM_GBMDeinit KMSDRM_GBMInit
  by_cases hdev : o.gbm_dev = NULL
  · by_cases hfd : 0 ≤ o.open_fd
    · simp [hgbm, hdev, hfd, emitted, SDL_SetError]
    · simp [hgbm, hdev, hfd, emitted, SDL_SetError]
  · by_cases hfd : 0 ≤ o.open_fd
    · simp [hgbm, hdev, hfd, emitted]
    · simp [hgbm, hdev, hfd, emitted]

/-- C12 (amended) at two concrete inputs: with the device refused the result
is -1, with the device granted it is 0, and `gbm_init` is true in both. -/
theorem C12_witness :
    ((KMSDRM_GBMInit gbmDeviceFails freshState).1 = -1 ∧
     (KMSDRM_GBMInit gbmDeviceFails freshState).2.viddata.gbm_init = true) ∧
    ((KMSDRM_GBMInit gbmDeviceGranted freshState).1 = 0 ∧
     (KMSDRM_GBMInit gbmDeviceGranted freshState).2.viddata.gbm_init = true) :=
  ⟨⟨((C12_gbm_init_flags gbmDeviceFails freshState (by decide)).2.2.2.2.1 (by decide)).1,
    (C12_gbm_init_flags gbmDeviceFails freshState (by decide)).1⟩,
   ⟨(C12_gbm_init_flags gbmDeviceGranted freshState (by decide)).2.2.2.2.2 (by decide),
    (C12_gbm_init_flags gbmDeviceGranted freshState (by decide)).1⟩⟩

/-! ## The copy loop on memory -/

/-- The memory the copy loop leaves: one `memcpy` per row, in order. -/
theorem copyRows_mem_eq (b : KMSDRM_DumbBuffer) (sf : SDL_Surface) (w : Nat) (l : List Nat)
    (s : State) :
    (l.foldl (copyRow b sf w) s).mem =
      l.foldl (fun m i =>
        memcpy m (ptrAdd b.map (((i * b.req_create.pitch) % 2 ^ 32 : Nat) : Int))
          (ptrAdd sf.pixels (i32 ((i : Int) * (sf.pitch : Int))))
          (sizeT (i32 ((w : Int) * (sf.BytesPerPixel : Int))))) s.mem := by
  induction l generalizing s with
  | nil => simp
  | cons i l ih =>
    simp only [List.foldl_cons]
    rw [ih]
    simp [copyRow]

/-- The end of row `i` of `h` rows of pitch `p`, `n` bytes wide, lies within
`h * p`. -/
theorem row_end_le (i h p n : Nat) (hi : i < h) (hn : n ≤ p) : i * p + n ≤ h * p := by
  have h1 : (i + 1) * p ≤ h * p := Nat.mul_le_mul_right p hi
  have h2 : (i + 1) * p = i * p + p := Nat.succ_mul i p
  omega

/-- Rows in increasing order start one pitch apart at least. -/
theorem row_start_le (i k p : Nat) (hik : i < k) : i * p + p ≤ k * p := by
  have h1 : (i + 1) * p ≤ k * p := Nat.mul_le_mul_right p hik
  have h2 : (i + 1) * p = i * p + p := Nat.succ_mul i p
  omega

/-- A byte outside every destination row keeps its value through the copy
loop. -/
theorem rows_unwritten (dst src : Nat → Nat) (n : Nat) (m : Nat → Nat) (h : Nat) (a : Nat)
    (ha : ∀ i, i < h → ¬ (dst i ≤ a ∧ a < dst i + n)) :
    (List.range h).foldl (fun m i => memcpy m (dst i) (src i) n) m a = m a := by
  induction h with
  | zero => simp
  | succ k ih =>
    rw [List.range_succ, List.foldl_append]
    simp only [List.foldl_cons, List.foldl_nil]
    have hk := ha k (Nat.lt_succ_self k)
    unfold memcpy
    rw [if_neg hk]
    exact ih (fun i hi => ha i (Nat.lt_succ_of_lt hi))

/-- With destination rows that do not overlap one another and source bytes
that lie in no destination row, the copy loop leaves in row `i` the bytes the
source had in its row `i`. -/
theorem rows_copied (dst src : Nat → Nat) (n : Nat) (m : Nat → Nat) (h : Nat)
    (hrows : ∀ i k, i < k → k < h → dst i + n ≤ dst k)
    (hsrc : ∀ i j k, i < h → j < n → k < h → ¬ (dst k ≤ src i + j ∧ src i + j < dst k + n))
    (i j : Nat) (hi : i < h) (hj : j < n) :
    (List.range h).foldl (fun m i => memcpy m (dst i) (src i) n) m (dst i + j) =
      m (src i + j) := by
  induction h with
  | zero => omega
  | succ k ih =>
    rw [List.range_succ, List.foldl_append]
    simp only [List.foldl_cons, List.foldl_nil]
    unfold memcpy
    by_cases hik : i = k
    · subst hik
      have hc : dst i ≤ dst i + j ∧ dst i + j < dst i + n := ⟨by omega, by omega⟩
      rw [if_pos hc]
      have e : src i + (dst i + j - dst i) = src i + j := by omega
      rw [e]
      exact rows_unwritten dst src n m i (src i + j)
        (fun k2 hk2 => hsrc i j k2 (Nat.lt_succ_self i) hj (Nat.lt_succ_of_lt hk2))
    · have hlt : i < k := by omega
      have hr := hrows i k hlt (Nat.lt_succ_self k)
      have hc : ¬ (dst k ≤ dst i + j ∧ dst i + j < dst k + n) := by omega
      rw [if_neg hc]
      exact ih (fun a b hab hb => hrows a b hab (Nat.lt_succ_of_lt hb))
        (fun a b c ha hb hc2 => hsrc a b c (Nat.lt_succ_of_lt ha) hb (Nat.lt_succ_of_lt hc2))
        hlt

/-- The memory writes of a concatenation. -/
theorem writeCalls_append (a b : List KCall) :
    writeCalls (a ++ b) = writeCalls a ++ writeCalls b := by
  simp [writeCalls]

/-- Every call of the copy loop is a memory write. -/
theorem writeCalls_memcpy (l : List Nat) (f g h : Nat → Nat) :
    writeCalls (l.map (fun i => KCall.memcpy (f i) (g i) (h i))) =
      l.map (fun i => KCall.memcpy (f i) (g i) (h i)) := by
  induction l with
  | nil => rfl
  | cons i l ih =>
    simp only [List.map_cons, writeCalls, List.filter_cons, KCall.isWrite, if_true]
    rw [show List.filter KCall.isWrite
        (List.map (fun i => KCall.memcpy (f i) (g i) (h i)) l) =
        writeCalls (List.map (fun i => KCall.memcpy (f i) (g i) (h i)) l) from rfl, ih]

/-- The memory writes among the calls emitted, read off the two traces. -/
theorem writeCalls_emitted (s s2 : State) (X : List KCall) (h : s.trace <+: s2.trace)
    (hp : writeCalls s2.trace = writeCalls s.trace ++ X) :
    writeCalls (emitted s s2) = X := by
  have he := trace_eq_append_emitted s s2 h
  rw [he, writeCalls_append] at hp
  exact List.append_cancel_left hp

/-- An `int` product that stays below `2 ^ 31` is the product. -/
theorem i32_of_lt (k : Nat) (h : k < 2 ^ 31) : i32 (k : Int) = (k : Int) := by
  unfold i32; omega

/-- A pointer moved forward inside the address space. -/
theorem ptrAdd_of_lt (p k : Nat) (h : p + k < 2 ^ 64) : ptrAdd p (k : Int) = p + k := by
  unfold ptrAdd; omega

/-- A byte count that is not negative converts to itself. -/
theorem sizeT_of_lt (k : Nat) (h : k < 2 ^ 64) : sizeT (k : Int) = k := by
  unfold sizeT; omega

/-- The copy loop depends on the row addresses and the byte count of the rows
it visits only. -/
theorem rows_congr (dst src dst2 src2 : Nat → Nat) (n n2 : Nat) (m : Nat → Nat) (h : Nat)
    (hd : ∀ i, i < h → dst i = dst2 i) (hs : ∀ i, i < h → src i = src2 i)
    (hn : 0 < h → n = n2) :
    (List.range h).foldl (fun m i => memcpy m (dst i) (src i) n) m =
      (List.range h).foldl (fun m i => memcpy m (dst2 i) (src2 i) n2) m := by
  induction h with
  | zero => simp
  | succ k ih =>
    have hnn := hn (Nat.succ_pos k)
    subst hnn
    rw [List.range_succ, List.foldl_append, List.foldl_append]
    simp only [List.foldl_cons, List.foldl_nil]
    rw [hd k (Nat.lt_succ_self k), hs k (Nat.lt_succ_self k),
      ih (fun i hi => hd i (Nat.lt_succ_of_lt hi)) (fun i hi => hs i (Nat.lt_succ_of_lt hi))
        (fun _ => rfl)]

/-- The memory and the memory writes of a present that is not rejected: the
copy loop run on the memory of entry, with the back buffer and the surface of
entry, and nothing else. -/
theorem Update_mem (o : UpdateOracle) (s : State)
    (hgl : s.viddata.opengl_mode = false) (hinit : s.viddata.dumb_init = true) :
    (KMSDRM_Dumb_UpdateWindowFramebuffer o s).2.mem =
      (List.range s.window_h).foldl
        (fun m i => memcpy m
          (ptrAdd (s.windata.dumb_buffers.getD s.windata.back_buffer zeroBuffer).map
            (((i * (s.windata.dumb_buffers.getD s.windata.back_buffer
              zeroBuffer).req_create.pitch) % 2 ^ 32 : Nat) : Int))
          (ptrAdd (s.windata.framebuffer.getD zeroSurface).pixels
            (i32 ((i : Int) * ((s.windata.framebuffer.getD zeroSurface).pitch : Int))))
          (sizeT (i32 ((s.window_w : Int) *
            ((s.windata.framebuffer.getD zeroSurface).BytesPerPixel : Int))))) s.mem ∧
    writeCalls (KMSDRM_Dumb_UpdateWindowFramebuffer o s).2.trace =
      writeCalls s.trace ++ (List.range s.window_h).map
        (fun i => KCall.memcpy
          (ptrAdd (s.windata.dumb_buffers.getD s.windata.back_buffer zeroBuffer).map
            (((i * (s.windata.dumb_buffers.getD s.windata.back_buffer
              zeroBuffer).req_create.pitch) % 2 ^ 32 : Nat) : Int))
          (ptrAdd (s.windata.framebuffer.getD zeroSurface).pixels
            (i32 ((i : Int) * ((s.windata.framebuffer.getD zeroSurface).pitch : Int))))
          (sizeT (i32 ((s.window_w : Int) *
            ((s.windata.framebuffer.getD zeroSurface).BytesPerPixel : Int))))) := by
  have hc := CreateSurfaces_frame o.surfaces s
  have ht := CreateSurfaces_trace o.surfaces s
  have hw1 : ∀ (fd : Int) (c f : Nat) (r : Int), writeCalls [KCall.setCrtc fd c f r] = [] :=
    fun _ _ _ _ => rfl
  have hw2 : ∀ (fd : Int) (c f g : Nat) (p : Bool) (r : Int),
      writeCalls [KCall.pageFlip fd c f g p r] = [] := fun _ _ _ _ _ _ => rfl
  unfold KMSDRM_Dumb_UpdateWindowFramebuffer
  simp only [hgl, Bool.false_eq_true, if_false]
  by_cases hd : s.windata.egl_surface_dirty = true
  · simp only [hd, if_true, hc.1, hinit, Bool.not_true, Bool.false_eq_true, if_false]
    split_ifs <;>
      simp [copyRows_frame, copyRows_mem_eq, copyRows_trace_eq, WaitPageflip_frame, hc, ht,
        writeCalls_append, writeCalls_memcpy, hw1, hw2]
  · simp only [hd, if_false, hinit, Bool.not_true, Bool.false_eq_true]
    split_ifs <;>
      simp [copyRows_frame, copyRows_mem_eq, copyRows_trace_eq, WaitPageflip_frame,
        writeCalls_append, writeCalls_memcpy, hw1, hw2]

/-- C11, inputs on which the claim as stated fails, each a present that is
not rejected, of rows of 4 bytes, with both pitches at least 4; memory holds
`a mod 251` at address `a` on entry.
(1) Back-buffer pitch `2 ^ 31 + 16`, three rows: the `__u32` product
`2 * pitch` is 32, so row 2 of the surface lands at byte 32 of the back
buffer, and byte `pitch * 2` of the back buffer keeps its old value.
(2) Surface at `2 ^ 32` with pitch `2 ^ 30`, three rows: the `int` product
`2 * pitch` is `- 2 ^ 31`, so row 2 of the back buffer is read from address
`2 ^ 31`, not from row 2 of the surface.
(3) A window two rows high on buffers of one row, the front buffer mapped
right after the back buffer: row 1 is written past the back buffer's mapping,
onto byte 0 of the front buffer.
(4) A surface whose row 1 is row 0 of the back buffer's mapping: row 1 of the
back buffer receives what the copy of row 0 just wrote, not what row 1 of the
surface held on entry. -/
theorem C11_rows_miscopied :
    ((KMSDRM_Dumb_UpdateWindowFramebuffer goodFrame widePitchState).1 = 0 ∧
      (KMSDRM_Dumb_UpdateWindowFramebuffer goodFrame widePitchState).2.mem
          (2 ^ 33 + (2 ^ 31 + 16) * 2 + 0) ≠ widePitchState.mem (4096 + 4 * 2 + 0) ∧
      (KMSDRM_Dumb_UpdateWindowFramebuffer goodFrame widePitchState).2.mem (2 ^ 33 + 32) =
        widePitchState.mem (4096 + 4 * 2 + 0) ∧
      (KMSDRM_Dumb_UpdateWindowFramebuffer goodFrame widePitchState).2.mem (2 ^ 33 + 32) ≠
        widePitchState.mem (2 ^ 33 + 32) ∧
      writeCalls (emitted widePitchState
          (KMSDRM_Dumb_UpdateWindowFramebuffer goodFrame widePitchState).2) =
        [KCall.memcpy (2 ^ 33) 4096 4, KCall.memcpy (2 ^ 33 + (2 ^ 31 + 16)) 4100 4,
         KCall.memcpy (2 ^ 33 + 32) 4104 4]) ∧
    ((KMSDRM_Dumb_UpdateWindowFramebuffer goodFrame wideSurfaceState).1 = 0 ∧
      (KMSDRM_Dumb_UpdateWindowFramebuffer goodFrame wideSurfaceState).2.mem
          (2 ^ 34 + 4 * 2 + 0) ≠ wideSurfaceState.mem (2 ^ 32 + 2 ^ 30 * 2 + 0) ∧
      (KMSDRM_Dumb_UpdateWindowFramebuffer goodFrame wideSurfaceState).2.mem
          (2 ^ 34 + 4 * 2 + 0) = wideSurfaceState.mem (2 ^ 31) ∧
      writeCalls (emitted wideSurfaceState
          (KMSDRM_Dumb_UpdateWindowFramebuffer goodFrame wideSurfaceState).2) =
        [KCall.memcpy (2 ^ 34) (2 ^ 32) 4, KCall.memcpy (2 ^ 34 + 4) (2 ^ 32 + 2 ^ 30) 4,
         KCall.memcpy (2 ^ 34 + 8) (2 ^ 31) 4]) ∧
    ((KMSDRM_Dumb_UpdateWindowFramebuffer goodFrame tallWindowState).1 = 0 ∧
      (KMSDRM_Dumb_UpdateWindowFramebuffer goodFrame tallWindowState).2.mem (65540 + 0) ≠
        tallWindowState.mem (65540 + 0)) ∧
    ((KMSDRM_Dumb_UpdateWindowFramebuffer goodFrame overlaidSurfaceState).1 = 0 ∧
      (KMSDRM_Dumb_UpdateWindowFramebuffer goodFrame overlaidSurfaceState).2.mem
          (65536 + 4 * 1 + 0) ≠ overlaidSurfaceState.mem (65532 + 4 * 1 + 0)) := by
  refine ⟨⟨?_, ?_, ?_, ?_, ?_⟩, ⟨?_, ?_, ?_, ?_⟩, ⟨?_, ?_⟩, ⟨?_, ?_⟩⟩ <;> decide

/-- C11, amended: in a present that is not rejected, with the window `w` by
`h`, the surface `sf` and the back buffer `b` of entry, both pitches at least
`w * BytesPerPixel`, where the `h` rows lie inside the back buffer's mapping
and their offsets within 32 bits, the product `h * sf.pitch` fits an `int`,
and the surface's pixels and the front buffer's mapping lie apart from the
back buffer's mapping, all inside the address space: afterwards byte
`pitch * i + j` of the back buffer's mapping is the byte `pitch * i + j` the
surface held on entry, for every row `i < h` and `j < w * BytesPerPixel`; the
memory writes issued are exactly `h` copies of `w * BytesPerPixel` bytes, one
per row; every byte outside those rows, and so every byte of the front
buffer's mapping, has the value it had on entry. -/
theorem C11_rows_copied (o : UpdateOracle) (s : State) (sf : SDL_Surface)
    (b f : KMSDRM_DumbBuffer)
    (hgl : s.viddata.opengl_mode = false) (hinit : s.viddata.dumb_init = true)
    (hsurf : s.windata.framebuffer = some sf)
    (hb : s.windata.dumb_buffers[s.windata.back_buffer]? = some b)
    (_hf : s.windata.dumb_buffers[s.windata.front_buffer]? = some f)
    (hpd : s.window_w * sf.BytesPerPixel ≤ b.req_create.pitch)
    (hps : s.window_w * sf.BytesPerPixel ≤ sf.pitch)
    (hsize : s.window_h * b.req_create.pitch ≤ b.req_create.size)
    (hwrap : s.window_h * b.req_create.pitch ≤ 2 ^ 32)
    (hint : s.window_h * sf.pitch < 2 ^ 31)
    (hspace : b.map + b.req_create.size < 2 ^ 64 ∧ sf.pixels + s.window_h * sf.pitch < 2 ^ 64)
    (hsrc : sf.pixels + s.window_h * sf.pitch ≤ b.map ∨
      b.map + b.req_create.size ≤ sf.pixels)
    (hfront : f.map + f.req_create.size ≤ b.map ∨ b.map + b.req_create.size ≤ f.map) :
    (∀ i j, i < s.window_h → j < s.window_w * sf.BytesPerPixel →
      (KMSDRM_Dumb_UpdateWindowFramebuffer o s).2.mem (b.map + b.req_create.pitch * i + j) =
        s.mem (sf.pixels + sf.pitch * i + j)) ∧
    writeCalls (emitted s (KMSDRM_Dumb_UpdateWindowFramebuffer o s).2) =
      (List.range s.window_h).map (fun i =>
        KCall.memcpy (b.map + b.req_create.pitch * i) (sf.pixels + sf.pitch * i)
          (s.window_w * sf.BytesPerPixel)) ∧
    (∀ a, (∀ i, i < s.window_h →
        ¬ (b.map + b.req_create.pitch * i ≤ a ∧
           a < b.map + b.req_create.pitch * i + s.window_w * sf.BytesPerPixel)) →
      (KMSDRM_Dumb_UpdateWindowFramebuffer o s).2.mem a = s.mem a) ∧
    (∀ k, k < f.req_create.size →
      (KMSDRM_Dumb_UpdateWindowFramebuffer o s).2.mem (f.map + k) = s.mem (f.map + k)) := by
  have hbD : s.windata.dumb_buffers.getD s.windata.back_buffer zeroBuffer = b := by
    rw [List.getD_eq_getElem?_getD, hb]; rfl
  have hsD : s.windata.framebuffer.getD zeroSurface = sf := by rw [hsurf]; rfl
  obtain ⟨hm, hwr⟩ := Update_mem o s hgl hinit
  rw [hbD, hsD] at hm hwr
  -- where the rows are
  have hdst : ∀ i, i < s.window_h →
      b.req_create.pitch * i + s.window_w * sf.BytesPerPixel ≤
        s.window_h * b.req_create.pitch := by
    intro i hi
    have := row_end_le i s.window_h b.req_create.pitch _ hi hpd
    rwa [Nat.mul_comm i] at this
  have hsrcrow : ∀ i, i < s.window_h →
      sf.pitch * i + s.window_w * sf.BytesPerPixel ≤ s.window_h * sf.pitch := by
    intro i hi
    have := row_end_le i s.window_h sf.pitch _ hi hps
    rwa [Nat.mul_comm i] at this
  -- the 32-bit products do not wrap and the pointers stay in the address space
  have hoff : ∀ i, i < s.window_h →
      ptrAdd b.map (((i * b.req_create.pitch) % 2 ^ 32 : Nat) : Int) =
        b.map + b.req_create.pitch * i := by
    intro i hi
    have h1 := row_start_le i s.window_h b.req_create.pitch hi
    have h2 : i * b.req_create.pitch < 2 ^ 32 := by
      rcases Nat.eq_zero_or_pos b.req_create.pitch with h0 | h0
      · rw [h0, Nat.mul_zero]; exact Nat.two_pow_pos 32
      · omega
    rw [Nat.mod_eq_of_lt h2, ptrAdd_of_lt _ _ (by omega), Nat.mul_comm]
  have hsoff : ∀ i, i < s.window_h →
      ptrAdd sf.pixels (i32 ((i : Int) * (sf.pitch : Int))) = sf.pixels + sf.pitch * i := by
    intro i hi
    have h1 := hsrcrow i hi
    have h2 : sf.pitch * i < 2 ^ 31 := by omega
    rw [← Int.ofNat_mul, Nat.mul_comm i, i32_of_lt _ h2, ptrAdd_of_lt _ _ (by omega)]
  have hn : 0 < s.window_h →
      sizeT (i32 ((s.window_w : Int) * (sf.BytesPerPixel : Int))) =
        s.window_w * sf.BytesPerPixel := by
    intro hpos
    have h1 := hsrcrow 0 hpos
    have h2 : s.window_w * sf.BytesPerPixel < 2 ^ 31 := by omega
    rw [← Int.ofNat_mul, i32_of_lt _ h2, sizeT_of_lt _ (by omega)]
  have hm2 : (KMSDRM_Dumb_UpdateWindowFramebuffer o s).2.mem =
      (List.range s.window_h).foldl (fun m i =>
        memcpy m (b.map + b.req_create.pitch * i) (sf.pixels + sf.pitch * i)
          (s.window_w * sf.BytesPerPixel)) s.mem := by
    rw [hm]
    exact rows_congr _ _ (fun i => b.map + b.req_create.pitch * i)
      (fun i => sf.pixels + sf.pitch * i) _ _ s.mem s.window_h hoff hsoff hn
  have hrows : ∀ i k, i < k → k < s.window_h →
      (b.map + b.req_create.pitch * i) + s.window_w * sf.BytesPerPixel ≤
        b.map + b.req_create.pitch * k := by
    intro i k hik hk
    have := row_start_le i k b.req_create.pitch hik
    rw [Nat.mul_comm i, Nat.mul_comm k] at this
    omega
  have hsrcfree : ∀ i j k, i < s.window_h → j < s.window_w * sf.BytesPerPixel →
      k < s.window_h →
      ¬ (b.map + b.req_create.pitch * k ≤ sf.pixels + sf.pitch * i + j ∧
         sf.pixels + sf.pitch * i + j <
           b.map + b.req_create.pitch * k + s.window_w * sf.BytesPerPixel) := by
    intro i j k hi hj hk
    have h1 := hdst k hk
    have h2 := hsrcrow i hi
    omega
  -- every byte outside the rows keeps its value
  have hkeep : ∀ a, (∀ i, i < s.window_h →
        ¬ (b.map + b.req_create.pitch * i ≤ a ∧
           a < b.map + b.req_create.pitch * i + s.window_w * sf.BytesPerPixel)) →
      (KMSDRM_Dumb_UpdateWindowFramebuffer o s).2.mem a = s.mem a := by
    intro a ha
    rw [hm2]
    exact rows_unwritten (fun i => b.map + b.req_create.pitch * i)
      (fun i => sf.pixels + sf.pitch * i) _ s.mem s.window_h a ha
  refine ⟨?_, ?_, hkeep, ?_⟩
  · intro i j hi hj
    rw [hm2]
    exact rows_copied (fun i => b.map + b.req_create.pitch * i)
      (fun i => sf.pixels + sf.pitch * i) (s.window_w * sf.BytesPerPixel) s.mem s.window_h
      hrows hsrcfree i j hi hj
  · have hg := (Update_grows o s).1
    have hmap : (List.range s.window_h).map (fun i =>
          KCall.memcpy (ptrAdd b.map (((i * b.req_create.pitch) % 2 ^ 32 : Nat) : Int))
            (ptrAdd sf.pixels (i32 ((i : Int) * (sf.pitch : Int))))
            (sizeT (i32 ((s.window_w : Int) * (sf.BytesPerPixel : Int))))) =
        (List.range s.window_h).map (fun i =>
          KCall.memcpy (b.map + b.req_create.pitch * i) (sf.pixels + sf.pitch * i)
            (s.window_w * sf.BytesPerPixel)) := by
      apply List.map_congr_left
      intro i hi
      have hi2 := List.mem_range.mp hi
      rw [hoff i hi2, hsoff i hi2, hn (Nat.lt_of_le_of_lt (Nat.zero_le i) hi2)]
    rw [hmap] at hwr
    exact writeCalls_emitted s _ _ hg hwr
  · intro k hk
    apply hkeep
    intro i hi
    have h1 := hdst i hi
    omega

/-- C11 at a concrete input: the first present of a 1920x1080 window in
32-bit format, surface at 65536 with pitch 7680, back buffer mapped at
16777216 with pitch 7680 and 8294400 bytes, front buffer at 33554432, memory
painted with `a mod 251`.  The last byte of the last row of the back buffer
becomes the last byte of the last row of the surface, the first byte of the
front buffer keeps its value, and the writes are 1080 copies of 7680 bytes. -/
theorem C11_witness :
    (KMSDRM_Dumb_UpdateWindowFramebuffer goodFrame paintedState).2.mem
        (16777216 + 7680 * 1079 + 7679) = (65536 + 7680 * 1079 + 7679) % 251 ∧
    (KMSDRM_Dumb_UpdateWindowFramebuffer goodFrame paintedState).2.mem (33554432 + 0) =
      (33554432 + 0) % 251 ∧
    writeCalls (emitted paintedState
        (KMSDRM_Dumb_UpdateWindowFramebuffer goodFrame paintedState).2) =
      (List.range paintedState.window_h).map (fun i =>
        KCall.memcpy (16777216 + 7680 * i) (65536 + 7680 * i) (1920 * 4)) := by
  have h := C11_rows_copied goodFrame paintedState
    { pixels := 65536, pitch := 7680, BytesPerPixel := 4 }
    (paintedState.windata.dumb_buffers.getD 0 zeroBuffer)
    (paintedState.windata.dumb_buffers.getD 1 zeroBuffer)
    (by decide) (by decide) (by decide) (by decide) (by decide) (by decide) (by decide)
    (by decide) (by decide) (by decide) ⟨by decide, by decide⟩
    (Or.inl (by decide)) (Or.inr (by decide))
  have e1 := h.1 1079 7679 (by decide) (by decide)
  have e2 := h.2.2.2 0 (by decide)
  have a1 : (paintedState.windata.dumb_buffers.getD 0 zeroBuffer).map +
      (paintedState.windata.dumb_buffers.getD 0 zeroBuffer).req_create.pitch * 1079 + 7679 =
      16777216 + 7680 * 1079 + 7679 := by decide
  have a2 : (paintedState.windata.dumb_buffers.getD 1 zeroBuffer).map + 0 = 33554432 + 0 := by
    decide
  rw [a1] at e1
  rw [a2] at e2
  exact ⟨e1, e2, h.2.1⟩

end SDLKmsdrm
